import Mathlib

/-!
# CodeStorm front end: data-loading orchestrator and API layer

A shallow embedding of `frontend1/src/api.js` and of the data-loading part of
`frontend1/src/main.js`.

* JavaScript strings are Lean strings; `.length` is the number of UTF-16 code units.
* A promise-returning function is a state transformer over `World` that either returns a
  value or throws a `JSError`.  Everything observable (network requests, console output,
  calls to the render functions of `ui.js` and to the map widget of `modules/map.js`,
  timers) is appended to `World.trace`.
* The browser `fetch` is an oracle `Env.net`: the outcome of the n-th request of the
  session.
* A call of a render function of `ui.js` or of `addShelterMarkers` is recorded with its
  argument, and returns or throws as the source does: it returns on a value that takes the
  empty-state branch, throws a `TypeError` on any other value that is not an array, and on a
  non-empty array the render functions of `ui.js` build their markup item by item, with the
  outcome given by `Env.template`.  The container elements the render functions write to
  are part of the page.
-/

namespace CodeStorm

/-! ## JavaScript values -/

/-- A value produced by `response.json()`. Numbers are restricted to the integers that
JavaScript prints digit by digit (below `2^53` in absolute value). -/
inductive JSVal where
  | null
  | bool (b : Bool)
  | num (n : Int)
  | str (s : String)
  | arr (xs : List JSVal)
  | obj (fields : List (String × JSVal))

/-- An exception value: `name` is the constructor name (`Error`, `TypeError`, `AbortError`,
`SyntaxError`), `message` its message. -/
structure JSError where
  name : String
  message : String
deriving DecidableEq, Repr

/-- The value of `new Error(m)`. -/
def mkError (m : String) : JSError := ⟨"Error", m⟩

/-- The value thrown by the engine on a property read of `null` or `undefined`. -/
def mkTypeError (m : String) : JSError := ⟨"TypeError", m⟩

/-- JavaScript truthiness of a parsed JSON value. -/
def JSVal.truthy : JSVal → Bool
  | .null => false
  | .bool b => b
  | .num n => n != 0
  | .str s => s != ""
  | .arr _ => true
  | .obj _ => true

mutual
/-- The string conversion `String(v)` used by `new Error(v)`. -/
def JSVal.toJSString : JSVal → String
  | .null => "null"
  | .bool b => if b then "true" else "false"
  | .num n => toString n
  | .str s => s
  | .arr xs => ",".intercalate (JSVal.joinItems xs)
  | .obj _ => "[object Object]"
/-- The items of `Array.prototype.join`: `null` contributes the empty string. -/
def JSVal.joinItems : List JSVal → List String
  | [] => []
  | .null :: rest => "" :: JSVal.joinItems rest
  | v :: rest => JSVal.toJSString v :: JSVal.joinItems rest
end

/-- Lookup of an own property in a parsed JSON object. -/
def lookupField (key : String) : List (String × JSVal) → Option JSVal
  | [] => none
  | (k, v) :: rest => if k = key then some v else lookupField key rest

/-- The property read `v.error`: throws on `null`, is `undefined` (here `none`) on a
primitive, an array or an object without the property. -/
def JSVal.getError : JSVal → Except JSError (Option JSVal)
  | .null => .error (mkTypeError "Cannot read properties of null (reading \x27error\x27)")
  | .obj fields => .ok (lookupField "error" fields)
  | _ => .ok none

/-! ## JavaScript strings -/

/-- White space and line terminators: what `String.prototype.trim` strips and what the
regular-expression class `\s` matches. -/
def isJSWhitespace (c : Char) : Bool :=
  let n := c.toNat
  n == 0x09 || n == 0x0A || n == 0x0B || n == 0x0C || n == 0x0D || n == 0x20 ||
  n == 0xA0 || n == 0x1680 || (0x2000 ≤ n && n ≤ 0x200A) || n == 0x2028 || n == 0x2029 ||
  n == 0x202F || n == 0x205F || n == 0x3000 || n == 0xFEFF

/-- The characters of `s.trim()`. -/
def jsTrimChars (s : List Char) : List Char :=
  ((s.dropWhile isJSWhitespace).reverse.dropWhile isJSWhitespace).reverse

/-- The method `s.trim()`. -/
def jsTrim (s : String) : String := ⟨jsTrimChars s.data⟩

/-- The property `s.length`: the number of UTF-16 code units of `s`. -/
def jsLength (s : String) : Nat :=
  (s.data.map (fun c => if c.toNat < 0x10000 then 1 else 2)).sum

/-- Substring search on character lists. -/
def includesChars : List Char → List Char → Bool
  | [], sub => sub.isEmpty
  | c :: cs, sub => sub.isPrefixOf (c :: cs) || includesChars cs sub

/-- The method `s.includes(sub)`. -/
def jsIncludes (s sub : String) : Bool := includesChars s.data sub.data

/-- An upper-case hexadecimal digit. -/
def hexDigit (n : Nat) : Char := "0123456789ABCDEF".data.getD n '0'

/-- The characters `encodeURIComponent` leaves as they are:
letters, digits and `- _ . ! ~ * ' ( )`. -/
def isUriUnreserved (c : Char) : Bool :=
  c.isAlphanum || c == '-' || c == '_' || c == '.' || c == '!' || c == '~' || c == '*' ||
  c.toNat == 39 || c == '(' || c == ')'

/-- The function `encodeURIComponent(s)`: every other character is replaced by the
percent-encoding of its UTF-8 bytes. -/
def encodeURIComponent (s : String) : String :=
  ⟨s.data.flatMap (fun c =>
    if isUriUnreserved c then [c]
    else (String.utf8EncodeChar c).flatMap
      (fun b => ['%', hexDigit (b.toNat / 16), hexDigit (b.toNat % 16)]))⟩

/-! ## Requests, events and the world -/

/-- The object passed to `sendSOSAlert`; an absent property is `none`. -/
structure SOSData where
  name : Option String
  phone : Option String
  location : Option String
  emergency_type : Option String
  message : Option String
deriving DecidableEq, Repr

/-- The object passed to `submitAidRequest`; an absent property is `none`. -/
structure AidRequestData where
  name : Option String
  location : Option String
  aid_needed : Option String
deriving DecidableEq, Repr

/-- The object given to `JSON.stringify` for the request body. -/
inductive Body where
  | sos (d : SOSData)
  | aid (d : AidRequestData)
deriving DecidableEq, Repr

/-- One call of the browser `fetch`. -/
structure Request where
  url : String
  method : String
  body : Option Body
deriving DecidableEq, Repr

/-- What the browser does with one `fetch`: the promise rejects (with an `AbortError` when
the 10 second timer fired, with a `TypeError` when the network is unreachable), or a
response arrives with a status, a status text and the result of `response.json()`. -/
inductive FetchOutcome where
  | rejected (e : JSError)
  | response (status : Nat) (statusText : String) (json : Except JSError JSVal)

/-- The console method called. -/
inductive Level where
  | log
  | warn
  | error
deriving DecidableEq, Repr

/-- The observable effects. A console call is recorded with its first argument. -/
inductive Event where
  | console (level : Level) (text : String)
  | fetch (req : Request)
  | sleep (ms : Int)
  | initMap
  | invalidateMapSize
  | addShelterMarkers (v : JSVal)
  | renderNewsArticles (v : JSVal)
  | renderKitItems (v : JSVal)
  | renderInstructions (v : JSVal)
  | renderOrganizations (v : JSVal)
  | showMessage (message : String) (type : String)
  | addEventListener (id : String) (type : String)

/-- The part of a DOM element the orchestrator reads and writes: `dataset.loaded` and
whether the attribute `data-setup` is present. -/
structure Element where
  loaded : Option String
  dataSetup : Bool
deriving DecidableEq, Repr

/-- The state of the page and of the module `main.js`. -/
structure World where
  dom : String → Option Element
  loaderPresent : Bool
  loaderDisplay : String
  bodyOverflow : String
  mapInitialized : Bool
  netCount : Nat
  trace : List Event

/-- The environment: the outcome of the n-th `fetch` of the session; for two requests in
flight together (the first of them being the n-th) whether the second settles first; for a
call of a render function of `ui.js` on a non-empty array, whether building the markup of
its items returns (`none`) or throws; and whether `initMap` of `modules/map.js` manages to
create the Leaflet map, so that its variable `map` is defined. -/
structure Env where
  net : Nat → Request → FetchOutcome
  secondFirst : Nat → Bool
  template : Event → Option JSError
  mapReady : Bool

/-- A computation that returns a value or throws, and changes the world. -/
def M (α : Type) : Type := World → Except JSError α × World

/-- Return a value. -/
def M.pure {α : Type} (a : α) : M α := fun w => (.ok a, w)

/-- Sequencing: a thrown exception skips the rest. -/
def M.bind {α β : Type} (x : M α) (f : α → M β) : M β := fun w =>
  match x w with
  | (.ok a, w1) => f a w1
  | (.error e, w1) => (.error e, w1)

instance : Monad M where
  pure := M.pure
  bind := M.bind

/-- The statement `throw e`. -/
def throwJS {α : Type} (e : JSError) : M α := fun w => (.error e, w)

/-- The statement `try { body } catch (error) { handler }`. -/
def tryCatch {α : Type} (body : M α) (handler : JSError → M α) : M α := fun w =>
  match body w with
  | (.ok a, w1) => (.ok a, w1)
  | (.error e, w1) => handler e w1

/-- The statement `try { body } finally { cleanup }` for a cleanup that does not throw. -/
def tryFinally {α : Type} (body : M α) (cleanup : World → World) : M α := fun w =>
  match body w with
  | (r, w1) => (r, cleanup w1)

/-- Record events. -/
def World.emit (w : World) (es : List Event) : World := { w with trace := w.trace ++ es }

/-- Record one event. -/
def emit (e : Event) : M Unit := fun w => (.ok (), w.emit [e])

/-- Lift a pure result. -/
def liftExcept {α : Type} (r : Except JSError α) : M α := fun w => (r, w)

/-! ## api.js -/

/-- The constant `API_BASE_URL`. -/
def API_BASE_URL : String := "https://codestorm-backend.onrender.com/api"

/-- The constant `API_CONFIG.RETRY_ATTEMPTS`. -/
def RETRY_ATTEMPTS : Int := 3

/-- The constant `API_CONFIG.RETRY_DELAY`, in milliseconds. -/
def RETRY_DELAY : Int := 1000

/-- The property `response.ok`: the status is in the range 200 to 299. -/
def responseOk (status : Nat) : Bool := 200 ≤ status && status ≤ 299

/-- The `try` block of `fetchFromAPI`, from the moment `fetch` settles. On a response that
is not ok the body is parsed, with `{ error: "HTTP <status>: <statusText>" }` in its place
when parsing throws, and `new Error(errorData.error || "Request failed with status
<status>")` is thrown. -/
def fetchTry : FetchOutcome → Except JSError JSVal
  | .rejected e => .error e
  | .response status statusText json =>
    if !responseOk status then
      let errorData : JSVal :=
        match json with
        | .ok v => v
        | .error _ => .obj [("error", .str ("HTTP " ++ toString status ++ ": " ++ statusText))]
      match errorData.getError with
      | .error e => .error e
      | .ok (some v) =>
        if v.truthy then .error (mkError v.toJSString)
        else .error (mkError ("Request failed with status " ++ toString status))
      | .ok none => .error (mkError ("Request failed with status " ++ toString status))
    else json

/-- The `catch` block of `fetchFromAPI`: what is thrown for a caught `error`. -/
def fetchCatch (error : JSError) : JSError :=
  if error.name = "AbortError" then
    mkError "Request timed out. Please check your connection."
  else if error.name = "TypeError" && jsIncludes error.message "Failed to fetch" then
    mkError "Unable to connect to server. Please check if the server is running."
  else error

/-- The result of `fetchFromAPI` once its `fetch` has settled with outcome `o`. -/
def fetchSettle (o : FetchOutcome) : Except JSError JSVal :=
  match fetchTry o with
  | .ok v => .ok v
  | .error e => .error (fetchCatch e)

/-- The request `fetchFromAPI(endpoint)` sends when no options are given. -/
def getRequest (endpoint : String) : Request :=
  { url := API_BASE_URL ++ endpoint, method := "GET", body := none }

/-- The request `fetchFromAPI(endpoint, { method: "POST", body: JSON.stringify(b) })` sends. -/
def postRequest (endpoint : String) (b : Body) : Request :=
  { url := API_BASE_URL ++ endpoint, method := "POST", body := some b }

/-- The call `fetch(...)`: the request is recorded and the environment decides its outcome. -/
def issue (env : Env) (r : Request) : M FetchOutcome := fun w =>
  (.ok (env.net w.netCount r),
    { w with netCount := w.netCount + 1, trace := w.trace ++ [Event.fetch r] })

/-- The function `fetchFromAPI(endpoint, options)`, for the request `r` it passes to
`fetch`. -/
def fetchFromAPI (env : Env) (r : Request) : M JSVal := do
  let o ← issue env r
  liftExcept (fetchSettle o)

/-- An API function that has passed its validation, split at its one `await`, so that two
of them can be in flight together: the request it sends through `fetchFromAPI`, and what it
does once the `fetch` of `fetchFromAPI` has settled. -/
structure ApiCall where
  request : Request
  onSettle : FetchOutcome → M JSVal

/-- Awaiting an API call on its own. -/
def ApiCall.run (env : Env) (c : ApiCall) : M JSVal := do
  let o ← issue env c.request
  c.onSettle o

/-- The common shape `try { return await fetchFromAPI(..) } catch (error) {
console.error(logText, error); throw new Error(label + ": " + error.message) }`. -/
def wrapFailure (logText label : String) (o : FetchOutcome) : M JSVal :=
  tryCatch (liftExcept (fetchSettle o)) (fun error => do
    emit (.console .error logText)
    throwJS (mkError (label ++ ": " ++ error.message)))

/-- The function `getNews(location = "India")`; `none` is the omitted argument. -/
def getNews (location : Option String) : ApiCall :=
  let location := location.getD "India"
  { request := getRequest ("/prepare/news?location=" ++ encodeURIComponent location),
    onSettle := wrapFailure "Error fetching news:" "Failed to fetch news" }

/-- The function `getKitItems()`. -/
def getKitItems : ApiCall :=
  { request := getRequest "/prepare/kit",
    onSettle := wrapFailure "Error fetching kit items:" "Failed to fetch emergency kit items" }

/-- The function `getInstructions()`. -/
def getInstructions : ApiCall :=
  { request := getRequest "/prepare/instructions",
    onSettle :=
      wrapFailure "Error fetching instructions:" "Failed to fetch safety instructions" }

/-- The function `getShelters()`. -/
def getShelters : ApiCall :=
  { request := getRequest "/respond/shelters",
    onSettle := wrapFailure "Error fetching shelters:" "Failed to fetch shelter information" }

/-- The function `getOrganizations()`. -/
def getOrganizations : ApiCall :=
  { request := getRequest "/recover/organizations",
    onSettle :=
      wrapFailure "Error fetching organizations:" "Failed to fetch recovery organizations" }

/-- The test `!v || !v.toString().trim()` on a property that is absent or a string. -/
def isMissing : Option String → Bool
  | none => true
  | some s => s == "" || jsTrim s == ""

/-- The property read `sosData[field]`. -/
def SOSData.get (d : SOSData) (field : String) : Option String :=
  if field = "name" then d.name
  else if field = "phone" then d.phone
  else if field = "location" then d.location
  else if field = "emergency_type" then d.emergency_type
  else if field = "message" then d.message
  else none

/-- The property read `requestData[field]`. -/
def AidRequestData.get (d : AidRequestData) (field : String) : Option String :=
  if field = "name" then d.name
  else if field = "location" then d.location
  else if field = "aid_needed" then d.aid_needed
  else none

/-- The character class `[\d\s\-\(\)]`. -/
def phoneClass (c : Char) : Bool :=
  c.isDigit || isJSWhitespace c || c == '-' || c == '(' || c == ')'

/-- The tail `[\d\s\-\(\)]{10,}$` of the phone pattern matched at the start of `r`: the run
has to reach the end of the input, so every character is in the class. -/
def phoneRun (r : List Char) : Bool := decide (10 ≤ r.length) && r.all phoneClass

/-- The test `/^\+?[\d\s\-\(\)]{10,}$/.test(s)`: the greedy `\+?` first consumes a leading
plus sign, then is tried matching nothing. -/
def phoneRegexTest (s : String) : Bool :=
  (match s.data with
    | '+' :: r => phoneRun r
    | _ => false) || phoneRun s.data

/-- The function `sendSOSAlert(sosData)`. -/
def sendSOSAlert (env : Env) (sosData : SOSData) : M JSVal := do
  let requiredFields := ["name", "phone", "location", "emergency_type", "message"]
  let missingFields := requiredFields.filter (fun field => isMissing (sosData.get field))
  if missingFields.length > 0 then
    throwJS (mkError ("Please fill in all required fields: " ++ ", ".intercalate missingFields))
  else if !phoneRegexTest (sosData.phone.getD "undefined") then
    throwJS (mkError "Please enter a valid phone number")
  else
    ApiCall.run env
      { request := postRequest "/respond/sos" (.sos sosData),
        onSettle := wrapFailure "Error sending SOS alert:" "Failed to send SOS alert" }

/-- The property read `v.length` on a property that is absent or a string: it throws on
`undefined`. -/
def lengthOf : Option String → M Nat
  | some s => pure (jsLength s)
  | none => throwJS (mkTypeError "Cannot read properties of undefined (reading \x27length\x27)")

/-- The function `submitAidRequest(requestData)`. -/
def submitAidRequest (env : Env) (requestData : AidRequestData) : M JSVal := do
  let requiredFields := ["name", "location", "aid_needed"]
  let missingFields := requiredFields.filter (fun field => isMissing (requestData.get field))
  if missingFields.length > 0 then
    throwJS (mkError ("Please fill in all required fields: " ++ ", ".intercalate missingFields))
  else
    let nameLength ← lengthOf requestData.name
    if nameLength > 255 then
      throwJS (mkError "Name must be less than 255 characters")
    else
      let locationLength ← lengthOf requestData.location
      if locationLength > 1000 then
        throwJS (mkError "Location description must be less than 1000 characters")
      else
        let aidLength ← lengthOf requestData.aid_needed
        if aidLength > 1000 then
          throwJS (mkError "Aid description must be less than 1000 characters")
        else
          ApiCall.run env
            { request := postRequest "/recover/request-aid" (.aid requestData),
              onSettle :=
                wrapFailure "Error submitting aid request:" "Failed to submit aid request" }

/-- The function `getLocationNews(location, category = "disaster")`; `none` is an omitted
argument. -/
def getLocationNews (env : Env) (location : Option String) (category : Option String) :
    M JSVal := do
  let category := category.getD "disaster"
  if isMissing location then
    throwJS (mkError "Location is required")
  else
    let location := location.getD "undefined"
    ApiCall.run env
      { request := getRequest ("/prepare/news?location=" ++
          encodeURIComponent (jsTrim location) ++ "&category=" ++ encodeURIComponent category),
        onSettle := wrapFailure "Error fetching location news:"
          ("Failed to fetch news for " ++ location) }

/-- The shape `try { return await fetchFromAPI(..) } catch (error) { console.error(logText,
error); throw error }` of `healthCheck` and `testDatabaseConnection`. -/
def rethrowFailure (logText : String) (o : FetchOutcome) : M JSVal :=
  tryCatch (liftExcept (fetchSettle o)) (fun error => do
    emit (.console .error logText)
    throwJS error)

/-- The function `healthCheck()`. -/
def healthCheck : ApiCall :=
  { request := getRequest "/health", onSettle := rethrowFailure "Health check failed:" }

/-- The function `testDatabaseConnection()`. -/
def testDatabaseConnection : ApiCall :=
  { request := getRequest "/test/db", onSettle := rethrowFailure "Database test failed:" }

/-- The test `error.message.includes("400") || error.message.includes("404")`. -/
def stopsRetry (error : JSError) : Bool :=
  jsIncludes error.message "400" || jsIncludes error.message "404"

/-- The loop of `retryRequest` from the test `attempt <= maxAttempts` on; `fuel` bounds the
number of iterations. What is thrown is `some error`, or `none` for the value `undefined`
of a `lastError` that was never assigned. -/
def retryLoop (requestFn : M JSVal) (maxAttempts : Int) :
    Nat → Int → Option JSError → World → Except (Option JSError) JSVal × World
  | 0, _, lastError, w => (.error lastError, w)
  | fuel + 1, attempt, lastError, w =>
    if attempt ≤ maxAttempts then
      match requestFn w with
      | (.ok v, w1) => (.ok v, w1)
      | (.error error, w1) =>
        if attempt = maxAttempts then (.error (some error), w1)
        else if stopsRetry error then (.error (some error), w1)
        else
          retryLoop requestFn maxAttempts fuel (attempt + 1) (some error)
            (w1.emit [Event.sleep (RETRY_DELAY * attempt)])
    else (.error lastError, w)

/-- The function `retryRequest(requestFn, maxAttempts)`. The body of the loop runs at most
`maxAttempts` times, so the fuel given is never used up. -/
def retryRequest (requestFn : M JSVal) (maxAttempts : Int) (w : World) :
    Except (Option JSError) JSVal × World :=
  retryLoop requestFn maxAttempts (maxAttempts.toNat + 1) 1 none w

/-- The function `getNewsWithRetry(location)`. -/
def getNewsWithRetry (env : Env) (location : Option String) :=
  retryRequest ((getNews location).run env) RETRY_ATTEMPTS

/-- The function `getKitItemsWithRetry()`. -/
def getKitItemsWithRetry (env : Env) := retryRequest (getKitItems.run env) RETRY_ATTEMPTS

/-- The function `getInstructionsWithRetry()`. -/
def getInstructionsWithRetry (env : Env) :=
  retryRequest (getInstructions.run env) RETRY_ATTEMPTS

/-- The function `getSheltersWithRetry()`. -/
def getSheltersWithRetry (env : Env) := retryRequest (getShelters.run env) RETRY_ATTEMPTS

/-- The function `getOrganizationsWithRetry()`. -/
def getOrganizationsWithRetry (env : Env) :=
  retryRequest (getOrganizations.run env) RETRY_ATTEMPTS

/-! ## ui.js and modules/map.js -/

/-- The empty array literal. -/
def emptyArray : JSVal := .arr []

/-- The test `v.length === 0`. -/
def hasLengthZero : JSVal → Bool
  | .arr xs => xs.isEmpty
  | .str s => s == ""
  | .obj fields =>
    match lookupField "length" fields with
    | some (.num n) => n == 0
    | _ => false
  | _ => false

/-- The guard `!v || v.length === 0` of the render functions of `ui.js`, under which they
write the empty state into their container and return. -/
def isEmptyState (v : JSVal) : Bool := !v.truthy || hasLengthZero v

/-- Whether a render function of `ui.js` returns (`none`) or throws on `v`: it returns on
the empty state; on another array it goes through the items, with the outcome the
environment gives; on a string `v.slice(0, 5)` is a string and has no `map`; any other value
has no callable `slice`, or `forEach`. -/
def renderOutcome (env : Env) (call : Event) (notCallable notCallableOnString : String)
    (v : JSVal) : Option JSError :=
  if isEmptyState v then none
  else
    match v with
    | .arr _ => env.template call
    | .str _ => some (mkTypeError notCallableOnString)
    | _ => some (mkTypeError notCallable)

/-- The outcome of `ui.renderNewsArticles(articles)`. -/
def newsOutcome (env : Env) (articles : JSVal) : Option JSError :=
  renderOutcome env (Event.renderNewsArticles articles) "articles.slice is not a function"
    "articles.slice(...).map is not a function" articles

/-- The outcome of `ui.renderKitItems(items)`. -/
def kitOutcome (env : Env) (items : JSVal) : Option JSError :=
  renderOutcome env (Event.renderKitItems items) "items.forEach is not a function"
    "items.forEach is not a function" items

/-- The outcome of `ui.renderInstructions(instructions)`. -/
def instructionsOutcome (env : Env) (instructions : JSVal) : Option JSError :=
  renderOutcome env (Event.renderInstructions instructions)
    "instructions.forEach is not a function" "instructions.forEach is not a function"
    instructions

/-- The outcome of `ui.renderOrganizations(organizations)`. -/
def organizationsOutcome (env : Env) (organizations : JSVal) : Option JSError :=
  renderOutcome env (Event.renderOrganizations organizations)
    "organizations.forEach is not a function" "organizations.forEach is not a function"
    organizations

/-- The outcome of `addShelterMarkers(shelters)`: it returns under the guard `!map ||
!shelters`; on an array every shelter is handled inside its own `try`; any other value has
no callable `forEach`. -/
def shelterOutcome (env : Env) (shelters : JSVal) : Option JSError :=
  if !env.mapReady || !shelters.truthy then none
  else
    match shelters with
    | .arr _ => none
    | _ => some (mkTypeError "shelters.forEach is not a function")

/-- A call of a collaborator: the call is recorded, then it returns or throws. -/
def callCollaborator (call : Event) (outcome : Option JSError) : M Unit := fun w =>
  (match outcome with
    | none => .ok ()
    | some e => .error e, w.emit [call])

/-- The function `ui.renderNewsArticles(articles)`. -/
def renderNewsArticles (env : Env) (articles : JSVal) : M Unit :=
  callCollaborator (Event.renderNewsArticles articles) (newsOutcome env articles)

/-- The function `ui.renderKitItems(items)`. -/
def renderKitItems (env : Env) (items : JSVal) : M Unit :=
  callCollaborator (Event.renderKitItems items) (kitOutcome env items)

/-- The function `ui.renderInstructions(instructions)`. -/
def renderInstructions (env : Env) (instructions : JSVal) : M Unit :=
  callCollaborator (Event.renderInstructions instructions)
    (instructionsOutcome env instructions)

/-- The function `ui.renderOrganizations(organizations)`. -/
def renderOrganizations (env : Env) (organizations : JSVal) : M Unit :=
  callCollaborator (Event.renderOrganizations organizations)
    (organizationsOutcome env organizations)

/-- The function `addShelterMarkers(shelters)` of `modules/map.js`. -/
def addShelterMarkers (env : Env) (shelters : JSVal) : M Unit :=
  callCollaborator (Event.addShelterMarkers shelters) (shelterOutcome env shelters)

/-! ## main.js -/

/-- The result of one promise given to `Promise.allSettled`. -/
inductive Settled where
  | fulfilled (value : JSVal)
  | rejected (reason : JSError)

/-- Wait for an API call that is in flight and turn its result into a `Settled`. -/
def settle (c : ApiCall) (o : FetchOutcome) : M Settled := fun w =>
  match c.onSettle o w with
  | (.ok v, w1) => (.ok (.fulfilled v), w1)
  | (.error e, w1) => (.ok (.rejected e), w1)

/-- The expression `await Promise.allSettled([a, b])` for two API calls: both requests are
sent, in order, before either settles; the environment decides which settles first. -/
def allSettled (env : Env) (a b : ApiCall) : M (Settled × Settled) := fun w =>
  (do
    let oa ← issue env a.request
    let ob ← issue env b.request
    if env.secondFirst w.netCount then
      let rb ← settle b ob
      let ra ← settle a oa
      pure (ra, rb)
    else
      let ra ← settle a oa
      let rb ← settle b ob
      pure (ra, rb)) w

/-- The function `showLoader()`. -/
def showLoader : M Unit := fun w =>
  if w.loaderPresent then (.ok (), { w with loaderDisplay := "flex", bodyOverflow := "hidden" })
  else (.ok (), w)

/-- The function `hideLoader()`, as a change of the world. -/
def hideLoader (w : World) : World :=
  if w.loaderPresent then { w with loaderDisplay := "none", bodyOverflow := "auto" } else w

/-- The function `showError(message)`. -/
def showError (message : String) : M Unit := do
  emit (.console .error "Application Error:")
  emit (.showMessage message "error")

/-- One form of `setupForms`: when the element exists and has no attribute `data-setup`, a
submit listener is added and the attribute is set. -/
def setupForm (id : String) : M Unit := fun w =>
  match w.dom id with
  | some el =>
    if !el.dataSetup then
      (.ok (), { w with
        dom := (fun j => if j = id then some { el with dataSetup := true } else w.dom j),
        trace := w.trace ++ [Event.addEventListener id "submit"] })
    else (.ok (), w)
  | none => (.ok (), w)

/-- The function `setupForms()`. -/
def setupForms : M Unit := do
  setupForm "aidRequestForm"
  setupForm "sosForm"

/-- The function `loadDashboardData()`. -/
def loadDashboardData (env : Env) : M Unit := do
  emit (.console .log "Loading dashboard data...")
  tryCatch (do
    let mapInitialized ← (fun w => (.ok w.mapInitialized, w) : M Bool)
    if !mapInitialized then
      emit (.console .log "Initializing map...")
      emit .initMap
      (fun w => (.ok (), { w with mapInitialized := true }) : M Unit)
    let (newsResponse, sheltersResponse) ← allSettled env (getNews (some "India")) getShelters
    match newsResponse with
    | .fulfilled value =>
      emit (.console .log "News data loaded:")
      renderNewsArticles env value
    | .rejected _ =>
      emit (.console .error "Failed to load news:")
      renderNewsArticles env emptyArray
    match sheltersResponse with
    | .fulfilled value =>
      emit (.console .log "Shelters data loaded:")
      addShelterMarkers env value
    | .rejected _ =>
      emit (.console .error "Failed to load shelters:")
      addShelterMarkers env emptyArray
    emit .invalidateMapSize)
    (fun error => do
      emit (.console .error "Error in loadDashboardData:")
      throwJS error)

/-- The function `loadPrepareData()`. -/
def loadPrepareData (env : Env) : M Unit := do
  emit (.console .log "Loading prepare data...")
  let (kitResponse, instructionsResponse) ← allSettled env getKitItems getInstructions
  match kitResponse with
  | .fulfilled value =>
    emit (.console .log "Kit items loaded:")
    renderKitItems env value
  | .rejected _ =>
    emit (.console .error "Failed to load kit items:")
    renderKitItems env emptyArray
  match instructionsResponse with
  | .fulfilled value =>
    emit (.console .log "Instructions loaded:")
    renderInstructions env value
  | .rejected _ =>
    emit (.console .error "Failed to load instructions:")
    renderInstructions env emptyArray

/-- The function `loadRecoveryData()`. -/
def loadRecoveryData (env : Env) : M Unit := do
  emit (.console .log "Loading recovery data...")
  tryCatch (do
    let organizations ← getOrganizations.run env
    emit (.console .log "Organizations loaded:")
    renderOrganizations env organizations
    setupForms)
    (fun error => do
      emit (.console .error "Failed to load recovery data:")
      renderOrganizations env emptyArray
      throwJS error)

/-- The assignment `pageElement.dataset.loaded = "true"` on the element with id `pageId`. -/
def setLoaded (pageId : String) : M Unit := fun w =>
  (.ok (), { w with
    dom := (fun j =>
      if j = pageId then (w.dom pageId).map (fun el => { el with loaded := some "true" })
      else w.dom j) })

/-- The `switch (pageId)` of `loadPageData`. -/
def loadSwitch (env : Env) (pageId : String) : M Unit :=
  if pageId = "dashboard" then loadDashboardData env
  else if pageId = "prepare" then loadPrepareData env
  else if pageId = "recovery" then loadRecoveryData env
  else if pageId = "respond" then emit (.console .log "Respond page loaded")
  else emit (.console .warn ("Unknown page: " ++ pageId))

/-- The function `loadPageData(pageId)`. -/
def loadPageData (env : Env) (pageId : String) : M Unit := do
  emit (.console .log ("Loading page data for: " ++ pageId))
  let pageElement ← (fun w => (.ok (w.dom pageId), w) : M (Option Element))
  match pageElement with
  | none => emit (.console .error ("Page element not found: " ++ pageId))
  | some el =>
    if el.loaded = some "true" then
      if pageId = "dashboard" then emit .invalidateMapSize else pure ()
    else
      showLoader
      tryFinally
        (tryCatch (do
          loadSwitch env pageId
          setLoaded pageId
          emit (.console .log ("Page data loaded successfully for: " ++ pageId)))
          (fun error => do
            emit (.console .error ("Failed to load data for " ++ pageId ++ ":"))
            showError (if error.message != "" then error.message
              else "Failed to load page data")))
        hideLoader

/-- A session: calls of `loadPageData`, each completing before the next starts. -/
def runSession (env : Env) : List String → World → World
  | [], w => w
  | pageId :: rest, w => runSession env rest (loadPageData env pageId w).2

/-- The value of `dataset.loaded` of the element with the given id, when it exists. -/
def World.loadedFlag (w : World) (id : String) : Option (Option String) :=
  (w.dom id).map (fun el => el.loaded)

/-- The number of requests to `url` recorded in a trace. -/
def fetchCount (url : String) : List Event → Nat
  | [] => 0
  | Event.fetch r :: rest => (if r.url = url then 1 else 0) + fetchCount url rest
  | _ :: rest => fetchCount url rest

/-- The requests recorded in a trace. -/
def requestsOf : List Event → List Request
  | [] => []
  | Event.fetch r :: rest => r :: requestsOf rest
  | _ :: rest => requestsOf rest

/-- The waits recorded in a trace, in milliseconds. -/
def sleepsOf : List Event → List Int
  | [] => []
  | Event.sleep ms :: rest => ms :: sleepsOf rest
  | _ :: rest => sleepsOf rest

/-- The error notifications `ui.showMessage(message, "error")` recorded in a trace. -/
def errorNotifications : List Event → List String
  | [] => []
  | Event.showMessage m t :: rest =>
    if t = "error" then m :: errorNotifications rest else errorNotifications rest
  | _ :: rest => errorNotifications rest

/-- The texts of the `console.error` calls recorded in a trace. -/
def errorLogs : List Event → List String
  | [] => []
  | Event.console Level.error text :: rest => text :: errorLogs rest
  | _ :: rest => errorLogs rest

/-! ## Descriptions of traces, used to state what the functions above do -/

/-- The `Settled` value of an API call built with `wrapFailure label`, from the result of
`fetchFromAPI`. -/
def settledOf (label : String) : Except JSError JSVal → Settled
  | .ok v => .fulfilled v
  | .error e => .rejected (mkError (label ++ ": " ++ e.message))

/-- The console output of an API call built with `wrapFailure logText`. -/
def failureLog (logText : String) : Except JSError JSVal → List Event
  | .ok _ => []
  | .error _ => [Event.console Level.error logText]

/-- The console output of two API calls in flight together. -/
def settleLogs (secondFirst : Bool) (first second : List Event) : List Event :=
  if secondFirst then second ++ first else first ++ second

/-- What a loading routine does with one settled source: log and render the value, or log
the failure and render the empty array. -/
def sourceEvents (okLog errLog : String) (render : JSVal → Event) :
    Except JSError JSVal → List Event
  | .ok v => [Event.console Level.log okLog, render v]
  | .error _ => [Event.console Level.error errLog, render emptyArray]

/-- The listener `setupForm id` adds in world `w`, if any. -/
def setupFormEvents (id : String) (w : World) : List Event :=
  match w.dom id with
  | some el => if !el.dataSetup then [Event.addEventListener id "submit"] else []
  | none => []

/-- Whether a fetch succeeded. -/
def succeeded : Except JSError JSVal → Bool
  | .ok _ => true
  | .error _ => false

/-- What the render collaborator of a source is to receive: the fetched value, or the
empty array when the fetch failed. -/
def renderedValue : Except JSError JSVal → JSVal
  | .ok v => v
  | .error _ => emptyArray

/-- What follows a call of a render collaborator: `onThrow` when it throws, `rest` when it
returns. -/
def afterRender (outcome : Option JSError) (onThrow rest : List Event) : List Event :=
  match outcome with
  | some _ => onThrow
  | none => rest

/-- The error `loadDashboardData` throws when started in world `w`, if any: that of the
first render collaborator that throws. -/
def dashboardFailure (env : Env) (w : World) : Option JSError :=
  match newsOutcome env (renderedValue
    (fetchSettle (env.net w.netCount (getNews (some "India")).request))) with
  | some e => some e
  | none => shelterOutcome env (renderedValue
    (fetchSettle (env.net (w.netCount + 1) getShelters.request)))

/-- The events of one run of `loadDashboardData` started in world `w`. -/
def dashboardEvents (env : Env) (w : World) : List Event :=
  [Event.console Level.log "Loading dashboard data..."] ++
  (if w.mapInitialized then []
    else [Event.console Level.log "Initializing map...", Event.initMap]) ++
  [Event.fetch (getNews (some "India")).request, Event.fetch getShelters.request] ++
  settleLogs (env.secondFirst w.netCount)
    (failureLog "Error fetching news:"
      (fetchSettle (env.net w.netCount (getNews (some "India")).request)))
    (failureLog "Error fetching shelters:"
      (fetchSettle (env.net (w.netCount + 1) getShelters.request))) ++
  sourceEvents "News data loaded:" "Failed to load news:" Event.renderNewsArticles
    (fetchSettle (env.net w.netCount (getNews (some "India")).request)) ++
  afterRender
    (newsOutcome env (renderedValue
      (fetchSettle (env.net w.netCount (getNews (some "India")).request))))
    [Event.console Level.error "Error in loadDashboardData:"]
    (sourceEvents "Shelters data loaded:" "Failed to load shelters:" Event.addShelterMarkers
        (fetchSettle (env.net (w.netCount + 1) getShelters.request)) ++
      afterRender
        (shelterOutcome env (renderedValue
          (fetchSettle (env.net (w.netCount + 1) getShelters.request))))
        [Event.console Level.error "Error in loadDashboardData:"]
        [Event.invalidateMapSize])

/-- The error `loadPrepareData` throws when started in world `w`, if any: that of the first
render collaborator that throws. -/
def prepareFailure (env : Env) (w : World) : Option JSError :=
  match kitOutcome env (renderedValue
    (fetchSettle (env.net w.netCount getKitItems.request))) with
  | some e => some e
  | none => instructionsOutcome env (renderedValue
    (fetchSettle (env.net (w.netCount + 1) getInstructions.request)))

/-- The events of one run of `loadPrepareData` started in world `w`. -/
def prepareEvents (env : Env) (w : World) : List Event :=
  [Event.console Level.log "Loading prepare data...",
    Event.fetch getKitItems.request, Event.fetch getInstructions.request] ++
  settleLogs (env.secondFirst w.netCount)
    (failureLog "Error fetching kit items:"
      (fetchSettle (env.net w.netCount getKitItems.request)))
    (failureLog "Error fetching instructions:"
      (fetchSettle (env.net (w.netCount + 1) getInstructions.request))) ++
  sourceEvents "Kit items loaded:" "Failed to load kit items:" Event.renderKitItems
    (fetchSettle (env.net w.netCount getKitItems.request)) ++
  afterRender
    (kitOutcome env (renderedValue (fetchSettle (env.net w.netCount getKitItems.request))))
    []
    (sourceEvents "Instructions loaded:" "Failed to load instructions:"
      Event.renderInstructions
      (fetchSettle (env.net (w.netCount + 1) getInstructions.request)))

/-- Whether an event is a call of a render collaborator: a render function of `ui.js` or
`addShelterMarkers` of the map widget. -/
def isRenderCall : Event → Bool
  | Event.renderNewsArticles _ => true
  | Event.renderKitItems _ => true
  | Event.renderInstructions _ => true
  | Event.renderOrganizations _ => true
  | Event.addShelterMarkers _ => true
  | _ => false

/-- The calls of render collaborators recorded in a trace. -/
def renderCalls (es : List Event) : List Event := es.filter isRenderCall

/-! ## The vocabulary of the specification -/

/-- The pages with two independent data sources. -/
inductive TwoSourcePage where
  | dashboard
  | prepare
deriving DecidableEq, Repr

/-- The page identifier. -/
def TwoSourcePage.id : TwoSourcePage → String
  | .dashboard => "dashboard"
  | .prepare => "prepare"

/-- The first source: news for the dashboard, kit items for the prepare page. -/
def TwoSourcePage.firstCall : TwoSourcePage → ApiCall
  | .dashboard => getNews (some "India")
  | .prepare => getKitItems

/-- The second source: shelters for the dashboard, instructions for the prepare page. -/
def TwoSourcePage.secondCall : TwoSourcePage → ApiCall
  | .dashboard => getShelters
  | .prepare => getInstructions

/-- The render collaborator of the first source. -/
def TwoSourcePage.renderFirst : TwoSourcePage → JSVal → Event
  | .dashboard => Event.renderNewsArticles
  | .prepare => Event.renderKitItems

/-- The render collaborator of the second source. -/
def TwoSourcePage.renderSecond : TwoSourcePage → JSVal → Event
  | .dashboard => Event.addShelterMarkers
  | .prepare => Event.renderInstructions

/-- The result of the fetch of the first source when the page is loaded in world `w`: it
is the next request of the session. -/
def TwoSourcePage.firstResult (p : TwoSourcePage) (env : Env) (w : World) :
    Except JSError JSVal :=
  fetchSettle (env.net w.netCount p.firstCall.request)

/-- The result of the fetch of the second source when the page is loaded in world `w`: it
is the request after the next. -/
def TwoSourcePage.secondResult (p : TwoSourcePage) (env : Env) (w : World) :
    Except JSError JSVal :=
  fetchSettle (env.net (w.netCount + 1) p.secondCall.request)

/-- The events of the loading routine of a two-source page started in world `w`. -/
def TwoSourcePage.events (p : TwoSourcePage) (env : Env) (w : World) : List Event :=
  match p with
  | .dashboard => dashboardEvents env w
  | .prepare => prepareEvents env w

/-- Whether the render collaborator of the first source returns (`none`) or throws on the
value it receives when the page is loaded in world `w`. -/
def TwoSourcePage.firstOutcome (p : TwoSourcePage) (env : Env) (w : World) : Option JSError :=
  match p with
  | .dashboard => newsOutcome env (renderedValue (p.firstResult env w))
  | .prepare => kitOutcome env (renderedValue (p.firstResult env w))

/-- Whether the render collaborator of the second source returns (`none`) or throws on the
value it receives when the page is loaded in world `w`. -/
def TwoSourcePage.secondOutcome (p : TwoSourcePage) (env : Env) (w : World) :
    Option JSError :=
  match p with
  | .dashboard => shelterOutcome env (renderedValue (p.secondResult env w))
  | .prepare => instructionsOutcome env (renderedValue (p.secondResult env w))

/-- The error the loading routine of a two-source page throws when started in world `w`,
if any. -/
def TwoSourcePage.failure (p : TwoSourcePage) (env : Env) (w : World) : Option JSError :=
  match p with
  | .dashboard => dashboardFailure env w
  | .prepare => prepareFailure env w

/-- The message `loadPageData` shows for a caught `error`:
`error.message || "Failed to load page data"`. -/
def shownMessage (error : JSError) : String :=
  if error.message != "" then error.message else "Failed to load page data"

/-- The console line of the `catch` of `loadPageData(pageId)`. -/
def failedLoadLog (pageId : String) : String := "Failed to load data for " ++ pageId ++ ":"

/-- The number of loads of a page that failed, as recorded in a trace. -/
def failedLoads (pageId : String) (es : List Event) : Nat :=
  (errorLogs es).count (failedLoadLog pageId)

/-- The error `loadRecoveryData` throws when started in world `w`, if any: the failure of
the fetch of the organizations, the next request of the session, under the label of
`getOrganizations`, or what the render collaborator throws on the fetched value. -/
def recoveryFailure (env : Env) (w : World) : Option JSError :=
  match fetchSettle (env.net w.netCount getOrganizations.request) with
  | .error e => some (mkError ("Failed to fetch recovery organizations: " ++ e.message))
  | .ok v => organizationsOutcome env v

/-- The failure of the load of a page with at most one data source, in world `w`: that of
the recovery page; the respond page fetches and renders nothing. -/
def singleSourceFailure (env : Env) (w : World) (pageId : String) : Option JSError :=
  if pageId = "recovery" then recoveryFailure env w else none

/-- The pages `loadPageData` has a case for. -/
def knownPages : List String := ["dashboard", "prepare", "recovery", "respond"]

/-! ## Example worlds and environments -/

/-- A document with the four pages, the side bar and the two forms, nothing loaded yet. -/
def freshWorld : World :=
  { dom := fun id =>
      if id ∈ ["dashboard", "prepare", "respond", "recovery", "sidebar", "aidRequestForm",
        "sosForm"] then some { loaded := none, dataSetup := false } else none,
    loaderPresent := true,
    loaderDisplay := "none",
    bodyOverflow := "auto",
    mapInitialized := false,
    netCount := 0,
    trace := [] }

/-- A backend that answers every request with `200 OK` and an empty array. -/
def healthyEnv : Env :=
  { net := fun _ _ => .response 200 "OK" (.ok (.arr [])),
    secondFirst := fun _ => false,
    template := fun _ => none,
    mapReady := true }

/-- A backend that never answers: every request is aborted by the timer. -/
def timeoutEnv : Env :=
  { net := fun _ _ => .rejected ⟨"AbortError", "The operation was aborted."⟩,
    secondFirst := fun _ => false,
    template := fun _ => none,
    mapReady := true }

/-- A backend whose news endpoint never answers, and which answers everything else. -/
def newsDownEnv : Env :=
  { net := fun _ r =>
      if r.url = (getNews (some "India")).request.url then
        .rejected ⟨"AbortError", "The operation was aborted."⟩
      else .response 200 "OK" (.ok (.arr [.str "shelter"])),
    secondFirst := fun _ => false,
    template := fun _ => none,
    mapReady := true }

/-- A backend whose news endpoint answers `200 OK` with the object `{"articles": []}` in
place of an array, and whose other endpoints never answer. -/
def wrappedNewsEnv : Env :=
  { net := fun _ r =>
      if r.url = (getNews (some "India")).request.url then
        .response 200 "OK" (.ok (.obj [("articles", .arr [])]))
      else .rejected ⟨"AbortError", "The operation was aborted."⟩,
    secondFirst := fun _ => false,
    template := fun _ => none,
    mapReady := true }

/-- A backend that answers every request with `200 OK` and the object
`{"organizations": []}` in place of an array. -/
def wrappedOrganizationsEnv : Env :=
  { net := fun _ _ => .response 200 "OK" (.ok (.obj [("organizations", .arr [])])),
    secondFirst := fun _ => false,
    template := fun _ => none,
    mapReady := true }

/-- The requests `loadPageData(pageId)` sends in world `w`: those of the page, when its
element exists and is not loaded. -/
def pageRequests (w : World) (pageId : String) : List Request :=
  match w.dom pageId with
  | none => []
  | some el =>
    if el.loaded = some "true" then []
    else if pageId = "dashboard" then [(getNews (some "India")).request, getShelters.request]
    else if pageId = "prepare" then [getKitItems.request, getInstructions.request]
    else if pageId = "recovery" then [getOrganizations.request]
    else []

/-- A field that is absent, empty or made of white space only. -/
def isBlank : Option String → Bool
  | none => true
  | some s => s == "" || s.data.all isJSWhitespace

/-- The names of the blank fields among the given ones, in the order given. -/
def blankFieldNames (fields : List (String × Option String)) : List String :=
  (fields.filter (fun f => isBlank f.2)).map (fun f => f.1)

/-- The required fields of an aid request, in the order name, location, aid_needed. -/
def AidRequestData.required (d : AidRequestData) : List (String × Option String) :=
  [("name", d.name), ("location", d.location), ("aid_needed", d.aid_needed)]

/-- The required fields of an SOS alert. -/
def SOSData.required (d : SOSData) : List (String × Option String) :=
  [("name", d.name), ("phone", d.phone), ("location", d.location),
    ("emergency_type", d.emergency_type), ("message", d.message)]

/-- The phone pattern in words: an optional leading plus sign, then at least 10 characters,
each of which is a digit, white space, a hyphen or a parenthesis. -/
def PhonePattern (s : String) : Prop :=
  ∃ rest : List Char, (s.data = '+' :: rest ∨ s.data = rest) ∧ 10 ≤ rest.length ∧
    ∀ c ∈ rest, c.isDigit = true ∨ isJSWhitespace c = true ∨ c = '-' ∨ c = '(' ∨ c = ')'

/-- The number of digit characters of a string. -/
def digitCount (s : String) : Nat := (s.data.filter Char.isDigit).length

/-- The aid request of the specification's validation example. -/
def aidExample : AidRequestData :=
  { name := some "", location := some "x", aid_needed := some "y" }

/-- An SOS alert with the phone number `123`. -/
def sosShortPhone : SOSData :=
  { name := some "Asha", phone := some "123", location := some "Bhubaneswar",
    emergency_type := some "flood", message := some "Water is rising" }

/-- An SOS alert whose phone field is ten hyphens. -/
def sosHyphens : SOSData :=
  { name := some "Asha", phone := some "----------", location := some "Bhubaneswar",
    emergency_type := some "flood", message := some "Water is rising" }

/-- An SOS alert whose name has 256 characters. -/
def sosLongName : SOSData :=
  { name := some ⟨List.replicate 256 'a'⟩, phone := some "+91 98765 43210",
    location := some "Bhubaneswar", emergency_type := some "flood",
    message := some "Water is rising" }

/-- An aid request within the length ceilings. -/
def aidValid : AidRequestData :=
  { name := some "Asha", location := some "Bhubaneswar", aid_needed := some "Drinking water" }

/-- A backend that answers every request with `404 Not Found` and an HTML page, which
`response.json()` cannot parse. -/
def htmlErrorEnv : Env :=
  { net := fun _ _ => .response 404 "Not Found" (.error ⟨"SyntaxError", "Unexpected token <"⟩),
    secondFirst := fun _ => false,
    template := fun _ => none,
    mapReady := true }

/-- A backend that answers every request with `404 Not Found` and a JSON error body. -/
def notFoundEnv : Env :=
  { net := fun _ _ => .response 404 "Not Found" (.ok (.obj [("error", .str "Resource missing")])),
    secondFirst := fun _ => false,
    template := fun _ => none,
    mapReady := true }

/-- A backend that answers every request with `500 Internal Server Error` and a JSON error
body that quotes an upstream status. -/
def upstreamErrorEnv : Env :=
  { net := fun _ _ => .response 500 "Internal Server Error"
      (.ok (.obj [("error", .str "Upstream returned 404")])),
    secondFirst := fun _ => false,
    template := fun _ => none,
    mapReady := true }

/-- A backend that does not answer the first two requests of the session and answers the
later ones. -/
def flakyEnv : Env :=
  { net := fun n _ =>
      if n < 2 then .rejected ⟨"AbortError", "The operation was aborted."⟩
      else .response 200 "OK" (.ok (.arr [.str "headline"])),
    secondFirst := fun _ => false,
    template := fun _ => none,
    mapReady := true }

/-- The world after `k` failed invocations of `requestFn` under `retryRequest`, the i-th of
them followed by the wait of `RETRY_DELAY * i` milliseconds. -/
def afterFailures (requestFn : M JSVal) : Nat → World → World
  | 0, w => w
  | k + 1, w =>
    (requestFn (afterFailures requestFn k w)).2.emit [Event.sleep (RETRY_DELAY * ((k : Int) + 1))]

/-- The waits before the attempts 2, 3, ..., k + 1: `RETRY_DELAY * 1`, ..., `RETRY_DELAY * k`
milliseconds, in that order. -/
def retryWaits : Nat → List Int
  | 0 => []
  | k + 1 => retryWaits k ++ [RETRY_DELAY * ((k : Int) + 1)]

/-- Whether a data-source fetch of the page fails when the page is loaded in world `w`. -/
def sourceFailed (env : Env) (w : World) (pageId : String) : Bool :=
  if pageId = "dashboard" then
    !succeeded (TwoSourcePage.dashboard.firstResult env w) ||
      !succeeded (TwoSourcePage.dashboard.secondResult env w)
  else if pageId = "prepare" then
    !succeeded (TwoSourcePage.prepare.firstResult env w) ||
      !succeeded (TwoSourcePage.prepare.secondResult env w)
  else if pageId = "recovery" then
    !succeeded (fetchSettle (env.net w.netCount getOrganizations.request))
  else false

/-! ## Lemmas and theorems -/




theorem bind_eq {α β : Type} (x : M α) (f : α → M β) (w : World) :
    (x >>= f) w = match x w with
      | (.ok a, w1) => f a w1
      | (.error e, w1) => (.error e, w1) := rfl

theorem pure_eq {α : Type} (a : α) (w : World) : (pure a : M α) w = (.ok a, w) := rfl

theorem wrapFailure_eq (logText label : String) (o : FetchOutcome) (w : World) :
    wrapFailure logText label o w =
      match fetchSettle o with
      | .ok v => (.ok v, w)
      | .error e =>
        (.error (mkError (label ++ ": " ++ e.message)),
          w.emit [Event.console Level.error logText]) := by
  unfold wrapFailure tryCatch liftExcept
  cases fetchSettle o <;> rfl

theorem settle_wrap (r : Request) (logText label : String) (o : FetchOutcome) (w : World) :
    settle { request := r, onSettle := wrapFailure logText label } o w =
      (.ok (settledOf label (fetchSettle o)), w.emit (failureLog logText (fetchSettle o))) := by
  simp only [settle, wrapFailure_eq]
  cases fetchSettle o <;> simp [settledOf, failureLog, World.emit]

theorem allSettled_wrap (env : Env) (ra rb : Request) (la ta lb tb : String) (w : World) :
    allSettled env { request := ra, onSettle := wrapFailure la ta }
        { request := rb, onSettle := wrapFailure lb tb } w =
      (.ok (settledOf ta (fetchSettle (env.net w.netCount ra)),
          settledOf tb (fetchSettle (env.net (w.netCount + 1) rb))),
        { w with
          netCount := w.netCount + 2,
          trace := w.trace ++ ([Event.fetch ra, Event.fetch rb] ++
            settleLogs (env.secondFirst w.netCount)
              (failureLog la (fetchSettle (env.net w.netCount ra)))
              (failureLog lb (fetchSettle (env.net (w.netCount + 1) rb)))) }) := by
  simp only [allSettled, bind_eq, issue]
  cases env.secondFirst w.netCount <;>
    simp [bind_eq, settle_wrap, pure_eq, World.emit, settleLogs]


theorem callCollaborator_eq (call : Event) (outcome : Option JSError) (w : World) :
    callCollaborator call outcome w =
      (match outcome with
        | none => .ok ()
        | some e => .error e, w.emit [call]) := rfl

theorem newsOutcome_empty (env : Env) : newsOutcome env emptyArray = none := rfl

theorem kitOutcome_empty (env : Env) : kitOutcome env emptyArray = none := rfl

theorem instructionsOutcome_empty (env : Env) : instructionsOutcome env emptyArray = none := rfl

theorem organizationsOutcome_empty (env : Env) :
    organizationsOutcome env emptyArray = none := rfl

theorem shelterOutcome_empty (env : Env) : shelterOutcome env emptyArray = none := by
  unfold shelterOutcome emptyArray
  split <;> rfl

theorem loadPrepareData_eq (env : Env) (w : World) :
    loadPrepareData env w =
      (match prepareFailure env w with
        | none => .ok ()
        | some e => .error e,
        { w with
          netCount := w.netCount + 2,
          trace := w.trace ++ prepareEvents env w }) := by
  simp only [loadPrepareData, prepareEvents, prepareFailure, getKitItems, getInstructions,
    bind_eq, emit, allSettled_wrap, World.emit]
  generalize fetchSettle (env.net w.netCount (getRequest "/prepare/kit")) = r1
  generalize fetchSettle (env.net (w.netCount + 1) (getRequest "/prepare/instructions")) = r2
  rcases r1 with e1 | v1 <;> rcases r2 with e2 | v2 <;>
    simp only [settledOf, sourceEvents, renderedValue, bind_eq, emit, World.emit,
      renderKitItems, renderInstructions, callCollaborator_eq, kitOutcome_empty,
      instructionsOutcome_empty, afterRender]
  · simp
  · cases instructionsOutcome env v2 <;> simp
  · cases kitOutcome env v1 <;> simp
  · cases kitOutcome env v1 <;> cases instructionsOutcome env v2 <;> simp

theorem loadDashboardData_eq (env : Env) (w : World) :
    loadDashboardData env w =
      (match dashboardFailure env w with
        | none => .ok ()
        | some e => .error e,
        { w with
          mapInitialized := true,
          netCount := w.netCount + 2,
          trace := w.trace ++ dashboardEvents env w }) := by
  cases hm : w.mapInitialized <;>
    simp only [loadDashboardData, dashboardEvents, dashboardFailure, getNews, getShelters,
      Option.getD_some, bind_eq, emit, tryCatch, World.emit, hm, allSettled_wrap,
      Bool.not_true, Bool.not_false, if_true, if_false, pure_eq, Bool.false_eq_true] <;>
    generalize fetchSettle (env.net w.netCount
      (getRequest ("/prepare/news?location=" ++ encodeURIComponent "India"))) = r1 <;>
    generalize fetchSettle (env.net (w.netCount + 1) (getRequest "/respond/shelters")) = r2 <;>
    rcases r1 with e1 | v1 <;> rcases r2 with e2 | v2 <;>
    simp only [settledOf, sourceEvents, renderedValue, bind_eq, emit, World.emit,
      renderNewsArticles, addShelterMarkers, callCollaborator_eq, newsOutcome_empty,
      shelterOutcome_empty, afterRender, throwJS] <;>
    first
    | (simp; done)
    | (cases shelterOutcome env v2 <;> simp; done)
    | (cases newsOutcome env v1 <;> simp; done)
    | (cases newsOutcome env v1 <;> cases shelterOutcome env v2 <;> simp)

theorem setupForm_fst (id : String) (w : World) : (setupForm id w).1 = .ok () := by
  unfold setupForm
  cases w.dom id with
  | none => rfl
  | some el => obtain ⟨l, ds⟩ := el; cases ds <;> rfl

theorem setupForm_netCount (id : String) (w : World) :
    (setupForm id w).2.netCount = w.netCount := by
  unfold setupForm
  cases w.dom id with
  | none => rfl
  | some el => obtain ⟨l, ds⟩ := el; cases ds <;> rfl

theorem setupForm_trace (id : String) (w : World) :
    (setupForm id w).2.trace = w.trace ++ setupFormEvents id w := by
  unfold setupForm setupFormEvents
  cases w.dom id with
  | none => simp
  | some el => obtain ⟨l, ds⟩ := el; cases ds <;> simp

theorem setupForm_loadedFlag (id : String) (w : World) (j : String) :
    (setupForm id w).2.loadedFlag j = w.loadedFlag j := by
  unfold setupForm World.loadedFlag
  cases h : w.dom id with
  | none => rfl
  | some el =>
    obtain ⟨l, ds⟩ := el
    cases ds
    · by_cases hj : j = id
      · subst hj; simp [h]
      · simp [hj]
    · rfl

theorem setupForm_mapInitialized (id : String) (w : World) :
    (setupForm id w).2.mapInitialized = w.mapInitialized := by
  unfold setupForm
  cases w.dom id with
  | none => rfl
  | some el => obtain ⟨l, ds⟩ := el; cases ds <;> rfl

theorem setupForms_eq (w : World) :
    setupForms w = (.ok (), (setupForm "sosForm" (setupForm "aidRequestForm" w).2).2) := by
  have h1 := setupForm_fst "aidRequestForm" w
  have h2 := setupForm_fst "sosForm" (setupForm "aidRequestForm" w).2
  simp only [setupForms, bind_eq]
  rcases h : setupForm "aidRequestForm" w with ⟨r, w1⟩
  rw [h] at h1 h2
  simp only at h1 h2
  subst h1
  simp only
  rcases h' : setupForm "sosForm" w1 with ⟨r', w2⟩
  rw [h'] at h2
  simp only at h2
  subst h2
  rfl

theorem setupForms_netCount (w : World) : (setupForms w).2.netCount = w.netCount := by
  simp [setupForms_eq, setupForm_netCount]

theorem setupForms_mapInitialized (w : World) :
    (setupForms w).2.mapInitialized = w.mapInitialized := by
  simp [setupForms_eq, setupForm_mapInitialized]

theorem setupForms_loadedFlag (w : World) (j : String) :
    (setupForms w).2.loadedFlag j = w.loadedFlag j := by
  simp [setupForms_eq, setupForm_loadedFlag]

theorem setupForms_trace (w : World) :
    (setupForms w).2.trace = w.trace ++ (setupFormEvents "aidRequestForm" w ++
      setupFormEvents "sosForm" (setupForm "aidRequestForm" w).2) := by
  simp [setupForms_eq, setupForm_trace]


theorem loadRecoveryData_eq (env : Env) (w : World) :
    loadRecoveryData env w =
      match fetchSettle (env.net w.netCount getOrganizations.request) with
      | .ok v =>
        match organizationsOutcome env v with
        | none =>
          (.ok (), (setupForms { w with
            netCount := w.netCount + 1,
            trace := w.trace ++ [Event.console Level.log "Loading recovery data...",
              Event.fetch getOrganizations.request,
              Event.console Level.log "Organizations loaded:",
              Event.renderOrganizations v] }).2)
        | some error =>
          (.error error,
            { w with
              netCount := w.netCount + 1,
              trace := w.trace ++ [Event.console Level.log "Loading recovery data...",
                Event.fetch getOrganizations.request,
                Event.console Level.log "Organizations loaded:",
                Event.renderOrganizations v,
                Event.console Level.error "Failed to load recovery data:",
                Event.renderOrganizations emptyArray] })
      | .error e =>
        (.error (mkError ("Failed to fetch recovery organizations: " ++ e.message)),
          { w with
            netCount := w.netCount + 1,
            trace := w.trace ++ [Event.console Level.log "Loading recovery data...",
              Event.fetch getOrganizations.request,
              Event.console Level.error "Error fetching organizations:",
              Event.console Level.error "Failed to load recovery data:",
              Event.renderOrganizations emptyArray] }) := by
  simp only [loadRecoveryData, getOrganizations, bind_eq, emit, tryCatch, World.emit,
    ApiCall.run, issue, wrapFailure_eq, renderOrganizations, callCollaborator_eq,
    organizationsOutcome_empty]
  rcases fetchSettle (env.net w.netCount (getRequest "/recover/organizations")) with e | v
  · simp [bind_eq, emit, World.emit, throwJS]
  · simp only [bind_eq, emit, World.emit, callCollaborator_eq]
    cases organizationsOutcome env v <;>
      simp [bind_eq, emit, World.emit, throwJS, setupForms_eq]

theorem loadPageData_noElement (env : Env) (pageId : String) (w : World)
    (h : w.dom pageId = none) :
    loadPageData env pageId w =
      (.ok (), w.emit [Event.console Level.log ("Loading page data for: " ++ pageId),
        Event.console Level.error ("Page element not found: " ++ pageId)]) := by
  simp [loadPageData, bind_eq, emit, World.emit, h]

theorem loadPageData_loaded (env : Env) (pageId : String) (w : World) (el : Element)
    (h : w.dom pageId = some el) (hl : el.loaded = some "true") :
    loadPageData env pageId w =
      (.ok (), w.emit ([Event.console Level.log ("Loading page data for: " ++ pageId)] ++
        if pageId = "dashboard" then [Event.invalidateMapSize] else [])) := by
  by_cases hp : pageId = "dashboard"
  · subst hp
    simp [loadPageData, bind_eq, emit, World.emit, h, hl]
  · simp [loadPageData, bind_eq, emit, World.emit, h, hl, hp, pure_eq]

theorem loadPageData_unloaded (env : Env) (pageId : String) (w : World) (el : Element)
    (h : w.dom pageId = some el) (hl : el.loaded ≠ some "true") :
    loadPageData env pageId w =
      match loadSwitch env pageId
        (showLoader (w.emit [Event.console Level.log ("Loading page data for: " ++ pageId)])).2
      with
      | (.ok _, w1) =>
        (.ok (), hideLoader ((setLoaded pageId w1).2.emit
          [Event.console Level.log ("Page data loaded successfully for: " ++ pageId)]))
      | (.error error, w1) =>
        (.ok (), hideLoader (w1.emit
          [Event.console Level.error ("Failed to load data for " ++ pageId ++ ":"),
            Event.console Level.error "Application Error:",
            Event.showMessage
              (if error.message != "" then error.message else "Failed to load page data")
              "error"])) := by
  simp only [loadPageData, bind_eq, emit, World.emit, h, hl, if_false, tryFinally, tryCatch,
    showError]
  have hs : ∀ w0 : World, showLoader w0 = (.ok (), (showLoader w0).2) := by
    intro w0; unfold showLoader; cases w0.loaderPresent <;> rfl
  rw [hs]
  simp only
  rcases loadSwitch env pageId _ with ⟨r, w1⟩
  cases r <;> simp [setLoaded, bind_eq, emit, World.emit]

@[simp] theorem emit_dom (w : World) (es : List Event) : (w.emit es).dom = w.dom := rfl

@[simp] theorem emit_trace (w : World) (es : List Event) :
    (w.emit es).trace = w.trace ++ es := rfl

@[simp] theorem emit_netCount (w : World) (es : List Event) :
    (w.emit es).netCount = w.netCount := rfl

@[simp] theorem emit_mapInitialized (w : World) (es : List Event) :
    (w.emit es).mapInitialized = w.mapInitialized := rfl

@[simp] theorem emit_loadedFlag (w : World) (es : List Event) (j : String) :
    (w.emit es).loadedFlag j = w.loadedFlag j := rfl

@[simp] theorem showLoader_dom (w : World) : (showLoader w).2.dom = w.dom := by
  unfold showLoader; cases w.loaderPresent <;> rfl

@[simp] theorem showLoader_trace (w : World) : (showLoader w).2.trace = w.trace := by
  unfold showLoader; cases w.loaderPresent <;> rfl

@[simp] theorem showLoader_netCount (w : World) : (showLoader w).2.netCount = w.netCount := by
  unfold showLoader; cases w.loaderPresent <;> rfl

@[simp] theorem showLoader_mapInitialized (w : World) :
    (showLoader w).2.mapInitialized = w.mapInitialized := by
  unfold showLoader; cases w.loaderPresent <;> rfl

@[simp] theorem hideLoader_dom (w : World) : (hideLoader w).dom = w.dom := by
  unfold hideLoader; cases w.loaderPresent <;> rfl

@[simp] theorem hideLoader_trace (w : World) : (hideLoader w).trace = w.trace := by
  unfold hideLoader; cases w.loaderPresent <;> rfl

@[simp] theorem hideLoader_netCount (w : World) : (hideLoader w).netCount = w.netCount := by
  unfold hideLoader; cases w.loaderPresent <;> rfl

@[simp] theorem hideLoader_mapInitialized (w : World) :
    (hideLoader w).mapInitialized = w.mapInitialized := by
  unfold hideLoader; cases w.loaderPresent <;> rfl

@[simp] theorem hideLoader_loadedFlag (w : World) (j : String) :
    (hideLoader w).loadedFlag j = w.loadedFlag j := by
  simp [World.loadedFlag]

@[simp] theorem showLoader_loadedFlag (w : World) (j : String) :
    (showLoader w).2.loadedFlag j = w.loadedFlag j := by
  simp [World.loadedFlag]

@[simp] theorem setLoaded_trace (pageId : String) (w : World) :
    (setLoaded pageId w).2.trace = w.trace := rfl

@[simp] theorem setLoaded_netCount (pageId : String) (w : World) :
    (setLoaded pageId w).2.netCount = w.netCount := rfl

@[simp] theorem setLoaded_mapInitialized (pageId : String) (w : World) :
    (setLoaded pageId w).2.mapInitialized = w.mapInitialized := rfl

theorem setLoaded_loadedFlag_self (pageId : String) (w : World) :
    (setLoaded pageId w).2.loadedFlag pageId = (w.loadedFlag pageId).map (fun _ => some "true") := by
  simp [setLoaded, World.loadedFlag]
  cases w.dom pageId <;> rfl

theorem setLoaded_loadedFlag_other (pageId j : String) (w : World) (h : j ≠ pageId) :
    (setLoaded pageId w).2.loadedFlag j = w.loadedFlag j := by
  simp [setLoaded, World.loadedFlag, h]

@[simp] theorem requestsOf_append (a b : List Event) :
    requestsOf (a ++ b) = requestsOf a ++ requestsOf b := by
  induction a with
  | nil => rfl
  | cons e rest ih => cases e <;> simp [requestsOf, ih]

@[simp] theorem sleepsOf_append (a b : List Event) :
    sleepsOf (a ++ b) = sleepsOf a ++ sleepsOf b := by
  induction a with
  | nil => rfl
  | cons e rest ih => cases e <;> simp [sleepsOf, ih]

@[simp] theorem errorLogs_append (a b : List Event) :
    errorLogs (a ++ b) = errorLogs a ++ errorLogs b := by
  induction a with
  | nil => rfl
  | cons e rest ih =>
    cases e with
    | console level text => cases level <;> simp [errorLogs, ih]
    | _ => simp [errorLogs, ih]

@[simp] theorem errorNotifications_append (a b : List Event) :
    errorNotifications (a ++ b) = errorNotifications a ++ errorNotifications b := by
  induction a with
  | nil => rfl
  | cons e rest ih =>
    cases e with
    | showMessage m t => by_cases ht : t = "error" <;> simp [errorNotifications, ih, ht]
    | _ => simp [errorNotifications, ih]

@[simp] theorem fetchCount_append (url : String) (a b : List Event) :
    fetchCount url (a ++ b) = fetchCount url a + fetchCount url b := by
  induction a with
  | nil => simp [fetchCount]
  | cons e rest ih => cases e <;> simp [fetchCount, ih, Nat.add_assoc]

@[simp] theorem renderCalls_append (a b : List Event) :
    renderCalls (a ++ b) = renderCalls a ++ renderCalls b := by
  simp [renderCalls]


theorem loadSwitch_twoSource (env : Env) (p : TwoSourcePage) (w : World) :
    (loadSwitch env p.id w).1 =
      (match p.failure env w with
        | none => .ok ()
        | some e => .error e) ∧
    (loadSwitch env p.id w).2.trace = w.trace ++ p.events env w ∧
    (loadSwitch env p.id w).2.netCount = w.netCount + 2 ∧
    (loadSwitch env p.id w).2.dom = w.dom := by
  cases p <;>
    simp [loadSwitch, TwoSourcePage.id, TwoSourcePage.events, TwoSourcePage.failure,
      loadDashboardData_eq, loadPrepareData_eq]

theorem events_congr (p : TwoSourcePage) (env : Env) (w1 w2 : World)
    (hn : w1.netCount = w2.netCount) (hm : w1.mapInitialized = w2.mapInitialized) :
    p.events env w1 = p.events env w2 := by
  cases p <;> simp [TwoSourcePage.events, dashboardEvents, prepareEvents, hn, hm]

theorem failure_congr (p : TwoSourcePage) (env : Env) (w1 w2 : World)
    (hn : w1.netCount = w2.netCount) : p.failure env w1 = p.failure env w2 := by
  cases p <;> simp [TwoSourcePage.failure, dashboardFailure, prepareFailure, hn]

theorem failure_eq (p : TwoSourcePage) (env : Env) (w : World) :
    p.failure env w =
      match p.firstOutcome env w with
      | some e => some e
      | none => p.secondOutcome env w := by
  cases p <;> rfl

theorem loadPageData_twoSource (env : Env) (w : World) (p : TwoSourcePage) (el : Element)
    (hel : w.dom p.id = some el) (hnl : el.loaded ≠ some "true") :
    (loadPageData env p.id w).1 = .ok () ∧
    (loadPageData env p.id w).2.trace = w.trace ++
      ([Event.console Level.log ("Loading page data for: " ++ p.id)] ++ p.events env w ++
        match p.failure env w with
        | none => [Event.console Level.log ("Page data loaded successfully for: " ++ p.id)]
        | some error =>
          [Event.console Level.error (failedLoadLog p.id),
            Event.console Level.error "Application Error:",
            Event.showMessage (shownMessage error) "error"]) ∧
    (loadPageData env p.id w).2.netCount = w.netCount + 2 ∧
    (loadPageData env p.id w).2.loadedFlag p.id =
      (match p.failure env w with
        | none => some (some "true")
        | some _ => w.loadedFlag p.id) ∧
    ∀ j, j ≠ p.id → (loadPageData env p.id w).2.loadedFlag j = w.loadedFlag j := by
  rw [loadPageData_unloaded env p.id w el hel hnl]
  obtain ⟨h1, h2, h3, h4⟩ := loadSwitch_twoSource env p
    (showLoader (w.emit [Event.console Level.log ("Loading page data for: " ++ p.id)])).2
  have hev := events_congr p env
    (showLoader (w.emit [Event.console Level.log ("Loading page data for: " ++ p.id)])).2 w
    (by simp) (by simp)
  have hfl := failure_congr p env
    (showLoader (w.emit [Event.console Level.log ("Loading page data for: " ++ p.id)])).2 w
    (by simp)
  rw [hfl] at h1
  rw [hev] at h2
  rcases hs : loadSwitch env p.id
    (showLoader (w.emit [Event.console Level.log ("Loading page data for: " ++ p.id)])).2
    with ⟨r, w1⟩
  rw [hs] at h1 h2 h3 h4
  simp only at h1 h2 h3 h4
  have hf : ∀ j, w1.loadedFlag j = w.loadedFlag j := by
    intro j; simp [World.loadedFlag, h4]
  have hp : w.loadedFlag p.id = some el.loaded := by simp [World.loadedFlag, hel]
  cases hfail : p.failure env w with
  | none =>
    rw [hfail] at h1
    simp only at h1
    subst h1
    refine ⟨rfl, ?_, ?_, ?_, ?_⟩
    · simp [h2]
    · simp [h3]
    · simp [setLoaded_loadedFlag_self, hf, hp]
    · intro j hj
      simp [setLoaded_loadedFlag_other _ _ _ hj, hf]
  | some error =>
    rw [hfail] at h1
    simp only at h1
    subst h1
    refine ⟨rfl, ?_, ?_, ?_, ?_⟩
    · simp [h2, failedLoadLog, shownMessage]
    · simp [h3]
    · simp [hf]
    · intro j hj
      simp [hf]

theorem events_requests (p : TwoSourcePage) (env : Env) (w : World) :
    requestsOf (p.events env w) = [p.firstCall.request, p.secondCall.request] := by
  cases p
  · simp only [TwoSourcePage.events, dashboardEvents, TwoSourcePage.firstCall,
      TwoSourcePage.secondCall]
    generalize fetchSettle (env.net w.netCount _) = r1
    generalize fetchSettle (env.net (w.netCount + 1) _) = r2
    generalize newsOutcome env _ = o1
    generalize shelterOutcome env _ = o2
    cases w.mapInitialized <;> cases r1 <;> cases r2 <;> cases o1 <;> cases o2 <;>
      cases env.secondFirst w.netCount <;>
      simp [requestsOf, settleLogs, failureLog, sourceEvents, afterRender]
  · simp only [TwoSourcePage.events, prepareEvents, TwoSourcePage.firstCall,
      TwoSourcePage.secondCall]
    generalize fetchSettle (env.net w.netCount _) = r1
    generalize fetchSettle (env.net (w.netCount + 1) _) = r2
    generalize kitOutcome env _ = o1
    cases r1 <;> cases r2 <;> cases o1 <;> cases env.secondFirst w.netCount <;>
      simp [requestsOf, settleLogs, failureLog, sourceEvents, afterRender]

theorem events_renderCalls (p : TwoSourcePage) (env : Env) (w : World) :
    renderCalls (p.events env w) =
      p.renderFirst (renderedValue (p.firstResult env w)) ::
        match p.firstOutcome env w with
        | none => [p.renderSecond (renderedValue (p.secondResult env w))]
        | some _ => [] := by
  cases p
  · simp only [TwoSourcePage.events, dashboardEvents, TwoSourcePage.firstCall,
      TwoSourcePage.secondCall, TwoSourcePage.firstResult, TwoSourcePage.secondResult,
      TwoSourcePage.renderFirst, TwoSourcePage.renderSecond, TwoSourcePage.firstOutcome]
    generalize fetchSettle (env.net w.netCount _) = r1
    generalize fetchSettle (env.net (w.netCount + 1) _) = r2
    generalize newsOutcome env _ = o1
    generalize shelterOutcome env _ = o2
    cases w.mapInitialized <;> cases r1 <;> cases r2 <;> cases o1 <;> cases o2 <;>
      cases env.secondFirst w.netCount <;>
      simp [renderCalls, isRenderCall, settleLogs, failureLog, sourceEvents, renderedValue,
        afterRender]
  · simp only [TwoSourcePage.events, prepareEvents, TwoSourcePage.firstCall,
      TwoSourcePage.secondCall, TwoSourcePage.firstResult, TwoSourcePage.secondResult,
      TwoSourcePage.renderFirst, TwoSourcePage.renderSecond, TwoSourcePage.firstOutcome]
    generalize fetchSettle (env.net w.netCount _) = r1
    generalize fetchSettle (env.net (w.netCount + 1) _) = r2
    generalize kitOutcome env _ = o1
    cases r1 <;> cases r2 <;> cases o1 <;> cases env.secondFirst w.netCount <;>
      simp [renderCalls, isRenderCall, settleLogs, failureLog, sourceEvents, renderedValue,
        afterRender]

theorem events_errorNotifications (p : TwoSourcePage) (env : Env) (w : World) :
    errorNotifications (p.events env w) = [] := by
  cases p
  · simp only [TwoSourcePage.events, dashboardEvents]
    generalize fetchSettle (env.net w.netCount _) = r1
    generalize fetchSettle (env.net (w.netCount + 1) _) = r2
    generalize newsOutcome env _ = o1
    generalize shelterOutcome env _ = o2
    cases w.mapInitialized <;> cases r1 <;> cases r2 <;> cases o1 <;> cases o2 <;>
      cases env.secondFirst w.netCount <;>
      simp [errorNotifications, settleLogs, failureLog, sourceEvents, afterRender]
  · simp only [TwoSourcePage.events, prepareEvents]
    generalize fetchSettle (env.net w.netCount _) = r1
    generalize fetchSettle (env.net (w.netCount + 1) _) = r2
    generalize kitOutcome env _ = o1
    cases r1 <;> cases r2 <;> cases o1 <;> cases env.secondFirst w.netCount <;>
      simp [errorNotifications, settleLogs, failureLog, sourceEvents, afterRender]

theorem events_errorLogs (p : TwoSourcePage) (env : Env) (w : World)
    (h : succeeded (p.firstResult env w) = false ∨ succeeded (p.secondResult env w) = false) :
    errorLogs (p.events env w) ≠ [] := by
  revert h
  cases p
  · simp only [TwoSourcePage.events, dashboardEvents, TwoSourcePage.firstCall,
      TwoSourcePage.secondCall, TwoSourcePage.firstResult, TwoSourcePage.secondResult]
    generalize newsOutcome env _ = o1
    generalize shelterOutcome env _ = o2
    generalize fetchSettle (env.net w.netCount _) = r1
    generalize fetchSettle (env.net (w.netCount + 1) _) = r2
    cases w.mapInitialized <;> cases r1 <;> cases r2 <;> cases o1 <;> cases o2 <;>
      cases env.secondFirst w.netCount <;>
      simp [errorLogs, settleLogs, failureLog, sourceEvents, succeeded, afterRender]
  · simp only [TwoSourcePage.events, prepareEvents, TwoSourcePage.firstCall,
      TwoSourcePage.secondCall, TwoSourcePage.firstResult, TwoSourcePage.secondResult]
    generalize kitOutcome env _ = o1
    generalize fetchSettle (env.net w.netCount _) = r1
    generalize fetchSettle (env.net (w.netCount + 1) _) = r2
    cases r1 <;> cases r2 <;> cases o1 <;> cases env.secondFirst w.netCount <;>
      simp [errorLogs, settleLogs, failureLog, sourceEvents, succeeded, afterRender]

theorem firstOutcome_of_failed (p : TwoSourcePage) (env : Env) (w : World)
    (h : succeeded (p.firstResult env w) = false) : p.firstOutcome env w = none := by
  cases hr : p.firstResult env w with
  | ok v => rw [hr] at h; exact absurd h (by simp [succeeded])
  | error e =>
    cases p <;>
      simp only [TwoSourcePage.firstOutcome, hr, renderedValue, newsOutcome_empty,
        kitOutcome_empty]

theorem secondOutcome_of_failed (p : TwoSourcePage) (env : Env) (w : World)
    (h : succeeded (p.secondResult env w) = false) : p.secondOutcome env w = none := by
  cases hr : p.secondResult env w with
  | ok v => rw [hr] at h; exact absurd h (by simp [succeeded])
  | error e =>
    cases p <;>
      simp only [TwoSourcePage.secondOutcome, hr, renderedValue, shelterOutcome_empty,
        instructionsOutcome_empty]

/-- Counterexample to claim C1 as stated: on the dashboard of a fresh document, the news are
fetched as the object `{"articles": []}` and the fetch of the shelters fails, so exactly one
fetch fails; `ui.renderNewsArticles` throws on the object, `loadDashboardData` rethrows, and
`loadPageData` leaves the loaded flag unset and shows the error. -/
theorem C1_counterexample :
    succeeded (TwoSourcePage.dashboard.firstResult wrappedNewsEnv freshWorld) = true ∧
    succeeded (TwoSourcePage.dashboard.secondResult wrappedNewsEnv freshWorld) = false ∧
    (loadPageData wrappedNewsEnv "dashboard" freshWorld).2.loadedFlag "dashboard" =
      some none ∧
    errorNotifications (loadPageData wrappedNewsEnv "dashboard" freshWorld).2.trace =
      ["articles.slice is not a function"] := by
  decide

/-- Claim C1, amended. Loading a two-source page (dashboard: news and shelters; prepare: kit
items and instructions) that is not yet loaded, when exactly one of its two fetches fails
and the render collaborator of the successful source returns on the fetched value: the
call returns, the loaded flag of the page becomes `true`, both requests were sent, and the
render collaborators are called exactly once each, the one of the failed source with the
empty array and the one of the successful source with the fetched value. -/
theorem C1_one_failed_source_still_loads (env : Env) (w : World) (p : TwoSourcePage)
    (el : Element) (hel : w.dom p.id = some el) (hnl : el.loaded ≠ some "true")
    (hone : succeeded (p.firstResult env w) ≠ succeeded (p.secondResult env w))
    (hfirst : succeeded (p.firstResult env w) = true → p.firstOutcome env w = none)
    (hsecond : succeeded (p.secondResult env w) = true → p.secondOutcome env w = none) :
    ∃ evs, (loadPageData env p.id w).2.trace = w.trace ++ evs ∧
      (loadPageData env p.id w).1 = .ok () ∧
      (loadPageData env p.id w).2.loadedFlag p.id = some (some "true") ∧
      requestsOf evs = [p.firstCall.request, p.secondCall.request] ∧
      renderCalls evs =
        [p.renderFirst (renderedValue (p.firstResult env w)),
          p.renderSecond (renderedValue (p.secondResult env w))] ∧
      (succeeded (p.firstResult env w) = false →
        renderedValue (p.firstResult env w) = emptyArray ∧
        p.secondResult env w = .ok (renderedValue (p.secondResult env w))) ∧
      (succeeded (p.secondResult env w) = false →
        renderedValue (p.secondResult env w) = emptyArray ∧
        p.firstResult env w = .ok (renderedValue (p.firstResult env w))) := by
  have ho1 : p.firstOutcome env w = none := by
    cases hs : succeeded (p.firstResult env w) with
    | true => exact hfirst hs
    | false => exact firstOutcome_of_failed p env w hs
  have ho2 : p.secondOutcome env w = none := by
    cases hs : succeeded (p.secondResult env w) with
    | true => exact hsecond hs
    | false => exact secondOutcome_of_failed p env w hs
  have hfail : p.failure env w = none := by rw [failure_eq, ho1, ho2]
  obtain ⟨h1, h2, _, h4, _⟩ := loadPageData_twoSource env w p el hel hnl
  rw [hfail] at h2 h4
  refine ⟨_, h2, h1, h4, ?_, ?_, ?_, ?_⟩
  · rw [requestsOf_append, requestsOf_append, events_requests]
    simp [requestsOf]
  · rw [renderCalls_append, renderCalls_append, events_renderCalls, ho1]
    simp [renderCalls, isRenderCall]
  · intro hf
    cases h1r : p.firstResult env w <;> cases h2r : p.secondResult env w <;>
      simp_all [succeeded, renderedValue]
  · intro hf
    cases h1r : p.firstResult env w <;> cases h2r : p.secondResult env w <;>
      simp_all [succeeded, renderedValue]

/-- Witness of claim C1 (amended): the dashboard of a fresh document, with the news endpoint
down and the shelters fetched as an array. -/
theorem C1_witness :
    freshWorld.dom "dashboard" = some ⟨none, false⟩ ∧
    succeeded (TwoSourcePage.dashboard.firstResult newsDownEnv freshWorld) ≠
      succeeded (TwoSourcePage.dashboard.secondResult newsDownEnv freshWorld) ∧
    TwoSourcePage.dashboard.secondOutcome newsDownEnv freshWorld = none ∧
    ∃ evs, (loadPageData newsDownEnv "dashboard" freshWorld).2.trace = freshWorld.trace ++ evs ∧
      (loadPageData newsDownEnv "dashboard" freshWorld).1 = .ok () ∧
      (loadPageData newsDownEnv "dashboard" freshWorld).2.loadedFlag "dashboard" =
        some (some "true") ∧
      renderCalls evs =
        [Event.renderNewsArticles emptyArray, Event.addShelterMarkers (.arr [.str "shelter"])] := by
  refine ⟨by decide, by decide, by decide, ?_⟩
  obtain ⟨evs, h1, h2, h3, _, h5, _⟩ :=
    C1_one_failed_source_still_loads newsDownEnv freshWorld .dashboard ⟨none, false⟩
      (by decide) (by decide) (by decide) (by decide) (by decide)
  exact ⟨evs, h1, h2, h3, h5⟩

theorem append_ne_empty (a m : String) (ha : a ≠ "") : a ++ m ≠ "" := by
  intro h
  apply ha
  have hd := congrArg String.data h
  simp only [String.data_append] at hd
  exact String.ext (List.append_eq_nil.mp hd).1

theorem setupForms_listeners (w : World) :
    ∃ listeners, (∀ e ∈ listeners, ∃ id, e = Event.addEventListener id "submit") ∧
      (setupForms w).2.trace = w.trace ++ listeners := by
  refine ⟨_, ?_, setupForms_trace w⟩
  intro e he
  simp only [List.mem_append, setupFormEvents] at he
  rcases he with he | he
  · split at he
    · split at he <;> simp_all
    · simp at he
  · split at he
    · split at he <;> simp_all
    · simp at he


theorem loadRecoveryData_ok (env : Env) (w : World) (v : JSVal)
    (h : fetchSettle (env.net w.netCount getOrganizations.request) = .ok v)
    (ho : organizationsOutcome env v = none) :
    ∃ listeners, (∀ e ∈ listeners, ∃ id, e = Event.addEventListener id "submit") ∧
      (loadRecoveryData env w).1 = .ok () ∧
      (loadRecoveryData env w).2.trace = w.trace ++
        ([Event.console Level.log "Loading recovery data...",
          Event.fetch getOrganizations.request,
          Event.console Level.log "Organizations loaded:",
          Event.renderOrganizations v] ++ listeners) ∧
      (loadRecoveryData env w).2.netCount = w.netCount + 1 ∧
      (loadRecoveryData env w).2.mapInitialized = w.mapInitialized ∧
      ∀ j, (loadRecoveryData env w).2.loadedFlag j = w.loadedFlag j := by
  rw [loadRecoveryData_eq, h]
  simp only [ho]
  obtain ⟨ls, hls, htr⟩ := setupForms_listeners { w with
    netCount := w.netCount + 1,
    trace := w.trace ++ [Event.console Level.log "Loading recovery data...",
      Event.fetch getOrganizations.request,
      Event.console Level.log "Organizations loaded:",
      Event.renderOrganizations v] }
  refine ⟨ls, hls, trivial, ?_, ?_, ?_, ?_⟩
  · rw [htr]; simp
  · rw [setupForms_netCount]
  · rw [setupForms_mapInitialized]
  · intro j
    rw [setupForms_loadedFlag]
    rfl

theorem loadRecoveryData_failed (env : Env) (w : World) (error : JSError)
    (h : recoveryFailure env w = some error) :
    ∃ evs, loadRecoveryData env w =
        (.error error, { w with netCount := w.netCount + 1, trace := w.trace ++ evs }) ∧
      requestsOf evs = [getOrganizations.request] ∧
      errorNotifications evs = [] ∧
      errorLogs evs ≠ [] := by
  unfold recoveryFailure at h
  rw [loadRecoveryData_eq]
  cases hr : fetchSettle (env.net w.netCount getOrganizations.request) with
  | error e =>
    rw [hr] at h
    simp only [Option.some.injEq] at h
    subst h
    exact ⟨_, rfl, by simp [requestsOf], by simp [errorNotifications], by simp [errorLogs]⟩
  | ok v =>
    rw [hr] at h
    simp only at h
    simp only [h]
    exact ⟨_, rfl, by simp [requestsOf], by simp [errorNotifications], by simp [errorLogs]⟩

theorem loadSwitch_recovery (env : Env) (w : World) :
    loadSwitch env "recovery" w = loadRecoveryData env w := by
  simp [loadSwitch]

theorem recoveryFailure_congr (env : Env) (w1 w2 : World) (h : w1.netCount = w2.netCount) :
    recoveryFailure env w1 = recoveryFailure env w2 := by
  simp [recoveryFailure, h]

theorem loadPageData_recovery_ok (env : Env) (w : World) (el : Element) (v : JSVal)
    (hel : w.dom "recovery" = some el) (hnl : el.loaded ≠ some "true")
    (h : fetchSettle (env.net w.netCount getOrganizations.request) = .ok v)
    (ho : organizationsOutcome env v = none) :
    ∃ listeners, (∀ e ∈ listeners, ∃ id, e = Event.addEventListener id "submit") ∧
      (loadPageData env "recovery" w).1 = .ok () ∧
      (loadPageData env "recovery" w).2.trace = w.trace ++
        ([Event.console Level.log "Loading page data for: recovery",
          Event.console Level.log "Loading recovery data...",
          Event.fetch getOrganizations.request,
          Event.console Level.log "Organizations loaded:",
          Event.renderOrganizations v] ++ listeners ++
          [Event.console Level.log "Page data loaded successfully for: recovery"]) ∧
      (loadPageData env "recovery" w).2.netCount = w.netCount + 1 ∧
      (loadPageData env "recovery" w).2.loadedFlag "recovery" = some (some "true") ∧
      ∀ j, j ≠ "recovery" → (loadPageData env "recovery" w).2.loadedFlag j = w.loadedFlag j := by
  rw [loadPageData_unloaded env "recovery" w el hel hnl, loadSwitch_recovery]
  obtain ⟨ls, hls, h1, h2, h3, _, h5⟩ := loadRecoveryData_ok env
    (showLoader (w.emit [Event.console Level.log ("Loading page data for: " ++ "recovery")])).2
    v (by simpa using h) ho
  rcases hs : loadRecoveryData env
    (showLoader (w.emit [Event.console Level.log ("Loading page data for: " ++ "recovery")])).2
    with ⟨r, w1⟩
  rw [hs] at h1 h2 h3 h5
  simp only at h1 h2 h3 h5
  subst h1
  have hp : w.loadedFlag "recovery" = some el.loaded := by simp [World.loadedFlag, hel]
  refine ⟨ls, hls, rfl, ?_, ?_, ?_, ?_⟩
  · simp [h2]
  · simp [h3]
  · simp [setLoaded_loadedFlag_self, h5, hp]
  · intro j hj
    simp [setLoaded_loadedFlag_other _ _ _ hj, h5]

theorem loadPageData_recovery_failed (env : Env) (w : World) (el : Element) (error : JSError)
    (hel : w.dom "recovery" = some el) (hnl : el.loaded ≠ some "true")
    (h : recoveryFailure env w = some error) :
    ∃ evs, (loadPageData env "recovery" w).2.trace = w.trace ++ evs ∧
      (loadPageData env "recovery" w).1 = .ok () ∧
      requestsOf evs = [getOrganizations.request] ∧
      errorNotifications evs = [shownMessage error] ∧
      failedLoadLog "recovery" ∈ errorLogs evs ∧
      (loadPageData env "recovery" w).2.netCount = w.netCount + 1 ∧
      ∀ j, (loadPageData env "recovery" w).2.loadedFlag j = w.loadedFlag j := by
  rw [loadPageData_unloaded env "recovery" w el hel hnl, loadSwitch_recovery]
  obtain ⟨evs, h1, h2, h3, _⟩ := loadRecoveryData_failed env
    (showLoader (w.emit [Event.console Level.log ("Loading page data for: " ++ "recovery")])).2
    error (by rw [← h]; exact recoveryFailure_congr env _ _ (by simp))
  rw [h1]
  refine ⟨[Event.console Level.log ("Loading page data for: " ++ "recovery")] ++ evs ++
    [Event.console Level.error (failedLoadLog "recovery"),
     Event.console Level.error "Application Error:",
     Event.showMessage (shownMessage error) "error"], ?_, rfl, ?_, ?_, ?_, ?_, ?_⟩
  · simp [failedLoadLog, shownMessage]
  · simp [requestsOf, h2]
  · simp [errorNotifications, h3, shownMessage]
  · simp [errorLogs, failedLoadLog]
  · simp
  · intro j
    simp [World.loadedFlag]

theorem emit_eq (e : Event) (w : World) : emit e w = (.ok (), w.emit [e]) := rfl

theorem loadPageData_noSource (env : Env) (w : World) (pageId : String) (el : Element)
    (hd : pageId ≠ "dashboard") (hp : pageId ≠ "prepare") (hr : pageId ≠ "recovery")
    (hel : w.dom pageId = some el) (hnl : el.loaded ≠ some "true") :
    (loadPageData env pageId w).1 = .ok () ∧
    (loadPageData env pageId w).2.trace = w.trace ++
      [Event.console Level.log ("Loading page data for: " ++ pageId),
        (if pageId = "respond" then Event.console Level.log "Respond page loaded"
          else Event.console Level.warn ("Unknown page: " ++ pageId)),
        Event.console Level.log ("Page data loaded successfully for: " ++ pageId)] ∧
    (loadPageData env pageId w).2.netCount = w.netCount ∧
    (loadPageData env pageId w).2.loadedFlag pageId = some (some "true") ∧
    ∀ j, j ≠ pageId → (loadPageData env pageId w).2.loadedFlag j = w.loadedFlag j := by
  rw [loadPageData_unloaded env pageId w el hel hnl]
  have hp' : w.loadedFlag pageId = some el.loaded := by simp [World.loadedFlag, hel]
  by_cases hs : pageId = "respond"
  · subst hs
    simp only [loadSwitch, hd, hp, hr, if_false, if_true, emit_eq]
    refine ⟨trivial, by simp, by simp, ?_, ?_⟩
    · simp [setLoaded_loadedFlag_self, hp']
    · intro j hj
      simp [setLoaded_loadedFlag_other _ _ _ hj]
  · simp only [loadSwitch, hd, hp, hr, hs, if_false, emit_eq]
    refine ⟨trivial, by simp, by simp, ?_, ?_⟩
    · simp [setLoaded_loadedFlag_self, hp']
    · intro j hj
      simp [setLoaded_loadedFlag_other _ _ _ hj]


theorem errorNotifications_listeners (ls : List Event)
    (hls : ∀ e ∈ ls, ∃ id, e = Event.addEventListener id "submit") :
    errorNotifications ls = [] := by
  induction ls with
  | nil => rfl
  | cons x rest ih =>
    obtain ⟨id, hx⟩ := hls x (List.mem_cons_self _ _)
    subst hx
    simp only [errorNotifications]
    exact ih (fun e he => hls e (List.mem_cons_of_mem _ he))

/-- Claim C2, counterexample. The recovery page of a fresh document, on a backend that
answers every request with status 200 and the body `{"organizations": []}`: the fetch of
the page succeeds, with the body itself as its value, the render collaborator throws on
it (an object has no `forEach`), and `loadPageData` leaves the loaded flag unset and shows
the `TypeError` to the user. A succeeding fetch does not set the loaded flag here. -/
theorem C2_counterexample :
    fetchSettle (wrappedOrganizationsEnv.net freshWorld.netCount getOrganizations.request) =
      .ok (.obj [("organizations", .arr [])]) ∧
    (loadPageData wrappedOrganizationsEnv "recovery" freshWorld).1 = .ok () ∧
    (loadPageData wrappedOrganizationsEnv "recovery" freshWorld).2.loadedFlag "recovery" =
      some none ∧
    errorNotifications (loadPageData wrappedOrganizationsEnv "recovery" freshWorld).2.trace =
      ["organizations.forEach is not a function"] :=
  ⟨rfl, rfl, by decide, by decide⟩

/-- Claim C2, amended. Loading a page with at most one data source (recovery, respond)
that is not yet loaded. The load of the recovery page fails when the fetch of the page
fails, with the error of the fetch under the label of `getOrganizations`, and also when
the fetch succeeds and the render collaborator throws on the fetched value. When the load
fails with `e`, the routine `loadRecoveryData` throws `e` to its caller, the loaded flag
stays as it was (so not `true`) and the failure is shown to the user as the one error
notification of the call; when the fetch succeeds and the render collaborator returns,
or the page has no fetch, the loaded flag becomes `true` and nothing is shown. The call
itself always returns. -/
theorem C2_single_source_failure_keeps_unloaded (env : Env) (w : World) (pageId : String)
    (el : Element) (hp : pageId = "recovery" ∨ pageId = "respond")
    (hel : w.dom pageId = some el) (hnl : el.loaded ≠ some "true") :
    (loadPageData env pageId w).1 = .ok () ∧
    (∀ e, pageId = "recovery" →
      fetchSettle (env.net w.netCount getOrganizations.request) = .error e →
      singleSourceFailure env w pageId =
        some (mkError ("Failed to fetch recovery organizations: " ++ e.message))) ∧
    (∀ v, pageId = "recovery" →
      fetchSettle (env.net w.netCount getOrganizations.request) = .ok v →
      singleSourceFailure env w pageId = organizationsOutcome env v) ∧
    (pageId = "respond" → singleSourceFailure env w pageId = none) ∧
    match singleSourceFailure env w pageId with
    | some e =>
      (loadRecoveryData env w).1 = .error e ∧
      (loadPageData env pageId w).2.loadedFlag pageId = w.loadedFlag pageId ∧
      (loadPageData env pageId w).2.loadedFlag pageId ≠ some (some "true") ∧
      errorNotifications (loadPageData env pageId w).2.trace =
        errorNotifications w.trace ++ [shownMessage e]
    | none =>
      (loadPageData env pageId w).2.loadedFlag pageId = some (some "true") ∧
      errorNotifications (loadPageData env pageId w).2.trace = errorNotifications w.trace := by
  have hflag : w.loadedFlag pageId ≠ some (some "true") := by
    simp [World.loadedFlag, hel, hnl]
  rcases hp with hp | hp
  · subst hp
    have hs : singleSourceFailure env w "recovery" = recoveryFailure env w := by
      simp [singleSourceFailure]
    rw [hs]
    refine ⟨?_, ?_, ?_, ?_, ?_⟩
    · cases h : recoveryFailure env w with
      | some e => exact (loadPageData_recovery_failed env w el e hel hnl h).choose_spec.2.1
      | none =>
        unfold recoveryFailure at h
        cases hr : fetchSettle (env.net w.netCount getOrganizations.request) with
        | error e => rw [hr] at h; simp at h
        | ok v =>
          rw [hr] at h
          obtain ⟨ls, _, h1, _⟩ := loadPageData_recovery_ok env w el v hel hnl hr h
          exact h1
    · intro e _ he
      simp [recoveryFailure, he]
    · intro v _ hv
      simp [recoveryFailure, hv]
    · intro h
      exact absurd h (by decide)
    · cases h : recoveryFailure env w with
      | some e =>
        obtain ⟨evs, h1, _, _, h4, _, _, h7⟩ := loadPageData_recovery_failed env w el e hel hnl h
        obtain ⟨evs2, h8, _⟩ := loadRecoveryData_failed env w e h
        refine ⟨by rw [h8], h7 _, ?_, ?_⟩
        · rw [h7]; exact hflag
        · rw [h1, errorNotifications_append, h4]
      | none =>
        unfold recoveryFailure at h
        cases hr : fetchSettle (env.net w.netCount getOrganizations.request) with
        | error e => rw [hr] at h; simp at h
        | ok v =>
          rw [hr] at h
          obtain ⟨ls, hls, _, h2, _, h4, _⟩ := loadPageData_recovery_ok env w el v hel hnl hr h
          refine ⟨h4, ?_⟩
          rw [h2]
          simp [errorNotifications_append, errorNotifications,
            errorNotifications_listeners ls hls]
  · subst hp
    obtain ⟨h1, h2, _, h4, _⟩ := loadPageData_noSource env w "respond" el (by decide)
      (by decide) (by decide) hel hnl
    have hs : singleSourceFailure env w "respond" = none := by
      simp [singleSourceFailure]
    refine ⟨h1, ?_, ?_, ?_, ?_⟩
    · intro e h
      exact absurd h (by decide)
    · intro v h
      exact absurd h (by decide)
    · intro _
      exact hs
    · rw [hs]
      refine ⟨h4, ?_⟩
      rw [h2]; simp [errorNotifications_append, errorNotifications]

/-- Witness of claim C2: the recovery page of a fresh document, on a backend that never
answers. -/
theorem C2_witness :
    freshWorld.dom "recovery" = some ⟨none, false⟩ ∧
    (loadPageData timeoutEnv "recovery" freshWorld).1 = .ok () ∧
    (loadPageData timeoutEnv "recovery" freshWorld).2.loadedFlag "recovery" ≠
      some (some "true") ∧
    errorNotifications (loadPageData timeoutEnv "recovery" freshWorld).2.trace =
      ["Failed to fetch recovery organizations: " ++
        "Request timed out. Please check your connection."] := by
  have h := C2_single_source_failure_keeps_unloaded timeoutEnv freshWorld "recovery"
    ⟨none, false⟩ (Or.inl rfl) (by decide) (by decide)
  have h2 : (loadRecoveryData timeoutEnv freshWorld).1 = _ ∧
      (loadPageData timeoutEnv "recovery" freshWorld).2.loadedFlag "recovery" =
        freshWorld.loadedFlag "recovery" ∧
      (loadPageData timeoutEnv "recovery" freshWorld).2.loadedFlag "recovery" ≠
        some (some "true") ∧
      errorNotifications (loadPageData timeoutEnv "recovery" freshWorld).2.trace =
        errorNotifications freshWorld.trace ++
          [shownMessage (mkError ("Failed to fetch recovery organizations: " ++
            "Request timed out. Please check your connection."))] := h.2.2.2.2
  exact ⟨by decide, h.1, h2.2.2.1, h2.2.2.2⟩

/-- Claim C3. For every page whose loaded flag is already `true`, `loadPageData` returns
having sent no request and called no render collaborator, the document (so every loaded
flag) is unchanged, and beyond the console line written on entry the only effect is the
map resize hook, for the dashboard only. -/
theorem C3_loaded_page_is_not_reloaded (env : Env) (w : World) (pageId : String)
    (el : Element) (hel : w.dom pageId = some el) (hl : el.loaded = some "true") :
    ∃ evs, (loadPageData env pageId w).2.trace = w.trace ++ evs ∧
      (loadPageData env pageId w).1 = .ok () ∧
      requestsOf evs = [] ∧
      (loadPageData env pageId w).2.netCount = w.netCount ∧
      renderCalls evs = [] ∧
      (loadPageData env pageId w).2.dom = w.dom ∧
      (∀ j, (loadPageData env pageId w).2.loadedFlag j = w.loadedFlag j) ∧
      evs = Event.console Level.log ("Loading page data for: " ++ pageId) ::
        (if pageId = "dashboard" then [Event.invalidateMapSize] else []) := by
  rw [loadPageData_loaded env pageId w el hel hl]
  refine ⟨_, rfl, rfl, ?_, rfl, ?_, rfl, fun _ => rfl, rfl⟩
  · by_cases hp : pageId = "dashboard" <;> simp [requestsOf, hp]
  · by_cases hp : pageId = "dashboard" <;> simp [renderCalls, isRenderCall, hp]

/-- Witness of claim C3: a second activation of the dashboard after it has been loaded. -/
theorem C3_witness :
    (loadPageData healthyEnv "dashboard" freshWorld).2.dom "dashboard" =
      some ⟨some "true", false⟩ ∧
    ∃ evs, (loadPageData healthyEnv "dashboard"
        (loadPageData healthyEnv "dashboard" freshWorld).2).2.trace =
        (loadPageData healthyEnv "dashboard" freshWorld).2.trace ++ evs ∧
      requestsOf evs = [] ∧ renderCalls evs = [] := by
  obtain ⟨evs, h1, _, h3, _, h5, _⟩ := C3_loaded_page_is_not_reloaded healthyEnv
    (loadPageData healthyEnv "dashboard" freshWorld).2 "dashboard" ⟨some "true", false⟩
    (by decide) rfl
  exact ⟨by decide, evs, h1, h3, h5⟩

/-- Counterexample to claim C5 as stated: `sidebar` is not a known page, the fresh document
has an element with that id, and `loadPageData` sets its loaded flag. -/
theorem C5_counterexample :
    "sidebar" ∉ knownPages ∧
    freshWorld.loadedFlag "sidebar" = some none ∧
    (loadPageData healthyEnv "sidebar" freshWorld).2.loadedFlag "sidebar" =
      some (some "true") := by
  decide

/-- Claim C5, amended. For a `pageId` that is not a known page, `loadPageData` returns
without an exception and sends no request. When the document has no element with that id
the document is unchanged; when it has one, the loaded flag of that element is `true`
afterwards and every other loaded flag is unchanged. -/
theorem C5_unknown_page_sends_nothing (env : Env) (w : World) (pageId : String)
    (hp : pageId ∉ knownPages) :
    ∃ evs, (loadPageData env pageId w).2.trace = w.trace ++ evs ∧
      (loadPageData env pageId w).1 = .ok () ∧
      requestsOf evs = [] ∧
      (loadPageData env pageId w).2.netCount = w.netCount ∧
      (∀ j, j ≠ pageId → (loadPageData env pageId w).2.loadedFlag j = w.loadedFlag j) ∧
      (w.dom pageId = none → (loadPageData env pageId w).2.dom = w.dom) ∧
      (w.dom pageId ≠ none →
        (loadPageData env pageId w).2.loadedFlag pageId = some (some "true")) := by
  simp only [knownPages, List.mem_cons, List.mem_singleton, List.not_mem_nil, or_false,
    not_or] at hp
  obtain ⟨hd, hpr, hr, hs⟩ := hp
  cases hel : w.dom pageId with
  | none =>
    rw [loadPageData_noElement env pageId w hel]
    exact ⟨_, rfl, rfl, by simp [requestsOf], rfl, fun _ _ => rfl, fun _ => rfl,
      fun h => absurd rfl h⟩
  | some el =>
    by_cases hl : el.loaded = some "true"
    · rw [loadPageData_loaded env pageId w el hel hl]
      refine ⟨_, rfl, rfl, by simp [requestsOf, hd], rfl, fun _ _ => rfl, fun h => ?_,
        fun _ => ?_⟩
      · simp at h
      · simp [World.loadedFlag, hel, hl]
    · obtain ⟨h1, h2, h3, h4, h5⟩ := loadPageData_noSource env w pageId el hd hpr hr hel hl
      refine ⟨_, h2, h1, by simp [requestsOf, hs], h3, h5, fun h => ?_, fun _ => h4⟩
      simp at h

/-- Witness of claim C5 (amended): the side bar of the fresh document. -/
theorem C5_witness :
    "sidebar" ∉ knownPages ∧
    ∃ evs, (loadPageData healthyEnv "sidebar" freshWorld).2.trace = freshWorld.trace ++ evs ∧
      (loadPageData healthyEnv "sidebar" freshWorld).1 = .ok () ∧
      requestsOf evs = [] := by
  obtain ⟨evs, h1, h2, h3, _⟩ :=
    C5_unknown_page_sends_nothing healthyEnv freshWorld "sidebar" (by decide)
  exact ⟨by decide, evs, h1, h2, h3⟩

theorem errorLogs_listeners (ls : List Event)
    (hls : ∀ e ∈ ls, ∃ id, e = Event.addEventListener id "submit") : errorLogs ls = [] := by
  induction ls with
  | nil => rfl
  | cons x rest ih =>
    obtain ⟨id, hx⟩ := hls x (List.mem_cons_self _ _)
    subst hx
    simp only [errorLogs]
    exact ih (fun e he => hls e (List.mem_cons_of_mem _ he))

theorem requestsOf_listeners (ls : List Event)
    (hls : ∀ e ∈ ls, ∃ id, e = Event.addEventListener id "submit") : requestsOf ls = [] := by
  induction ls with
  | nil => rfl
  | cons x rest ih =>
    obtain ⟨id, hx⟩ := hls x (List.mem_cons_self _ _)
    subst hx
    simp only [requestsOf]
    exact ih (fun e he => hls e (List.mem_cons_of_mem _ he))


theorem loadPageData_twoSource_step (env : Env) (w : World) (p : TwoSourcePage) (el : Element)
    (hel : w.dom p.id = some el) (hnl : el.loaded ≠ some "true") :
    ∃ evs, (loadPageData env p.id w).2.trace = w.trace ++ evs ∧
      requestsOf evs = [p.firstCall.request, p.secondCall.request] ∧
      (∀ j, (loadPageData env p.id w).2.loadedFlag j = w.loadedFlag j ∨
        (j = p.id ∧ (loadPageData env p.id w).2.loadedFlag j = some (some "true"))) ∧
      ((loadPageData env p.id w).2.loadedFlag p.id = some (some "true") ∨
        failedLoadLog p.id ∈ errorLogs evs) := by
  obtain ⟨_, h2, _, h4, h5⟩ := loadPageData_twoSource env w p el hel hnl
  refine ⟨_, h2, ?_, fun j => ?_, ?_⟩
  · rw [requestsOf_append, requestsOf_append, events_requests]
    cases p.failure env w <;> simp [requestsOf]
  · by_cases hj : j = p.id
    · subst hj
      cases hf : p.failure env w with
      | none => rw [hf] at h4; exact Or.inr ⟨rfl, h4⟩
      | some e => rw [hf] at h4; exact Or.inl h4
    · exact Or.inl (h5 j hj)
  · cases hf : p.failure env w with
    | none => rw [hf] at h4; exact Or.inl h4
    | some e =>
      right
      rw [errorLogs_append, errorLogs_append]
      simp [errorLogs]

theorem loadPageData_step (env : Env) (w : World) (pageId : String) :
    ∃ evs, (loadPageData env pageId w).2.trace = w.trace ++ evs ∧
      requestsOf evs = pageRequests w pageId ∧
      (∀ j, (loadPageData env pageId w).2.loadedFlag j = w.loadedFlag j ∨
        (j = pageId ∧ (loadPageData env pageId w).2.loadedFlag j = some (some "true"))) ∧
      (pageRequests w pageId ≠ [] →
        (loadPageData env pageId w).2.loadedFlag pageId = some (some "true") ∨
        failedLoadLog pageId ∈ errorLogs evs) := by
  cases hel : w.dom pageId with
  | none =>
    rw [loadPageData_noElement env pageId w hel]
    exact ⟨_, rfl, by simp [requestsOf, pageRequests, hel], fun _ => Or.inl rfl,
      by simp [pageRequests, hel]⟩
  | some el =>
    by_cases hl : el.loaded = some "true"
    · rw [loadPageData_loaded env pageId w el hel hl]
      refine ⟨_, rfl, ?_, fun _ => Or.inl rfl, by simp [pageRequests, hel, hl]⟩
      by_cases hp : pageId = "dashboard"
      · subst hp; simp [requestsOf, pageRequests, hel, hl]
      · simp [requestsOf, pageRequests, hel, hl, hp]
    · by_cases hd : pageId = "dashboard"
      · subst hd
        obtain ⟨evs, h1, h2, h3, h4⟩ :=
          loadPageData_twoSource_step env w .dashboard el hel hl
        refine ⟨evs, h1, ?_, h3, fun _ => h4⟩
        rw [h2]
        simp [pageRequests, hel, hl, TwoSourcePage.firstCall, TwoSourcePage.secondCall]
      · by_cases hp : pageId = "prepare"
        · subst hp
          obtain ⟨evs, h1, h2, h3, h4⟩ :=
            loadPageData_twoSource_step env w .prepare el hel hl
          refine ⟨evs, h1, ?_, h3, fun _ => h4⟩
          rw [h2]
          simp [pageRequests, hel, hl, TwoSourcePage.firstCall, TwoSourcePage.secondCall]
        · by_cases hr : pageId = "recovery"
          · subst hr
            cases hf : recoveryFailure env w with
            | none =>
              unfold recoveryFailure at hf
              cases h : fetchSettle (env.net w.netCount getOrganizations.request) with
              | error e => rw [h] at hf; simp at hf
              | ok v =>
                rw [h] at hf
                obtain ⟨ls, hls, _, h2, _, h4, h5⟩ :=
                  loadPageData_recovery_ok env w el v hel hl h hf
                refine ⟨_, h2, ?_, fun j => ?_, fun _ => Or.inl h4⟩
                · simp [requestsOf, requestsOf_listeners ls hls, pageRequests, hel, hl]
                · by_cases hj : j = "recovery"
                  · exact Or.inr ⟨hj, by rw [hj]; exact h4⟩
                  · exact Or.inl (h5 j hj)
            | some e =>
              obtain ⟨evs, h1, _, h3, _, h5, _, h7⟩ :=
                loadPageData_recovery_failed env w el e hel hl hf
              refine ⟨evs, h1, ?_, fun j => Or.inl (h7 j), fun _ => Or.inr h5⟩
              rw [h3]
              simp [pageRequests, hel, hl]
          · obtain ⟨_, h2, _, h4, h5⟩ := loadPageData_noSource env w pageId el hd hp hr hel hl
            refine ⟨_, h2, ?_, fun j => ?_, fun _ => Or.inl h4⟩
            · by_cases hs : pageId = "respond"
              · rw [if_pos hs]; simp [requestsOf, pageRequests, hel, hl, hd, hp, hr]
              · rw [if_neg hs]; simp [requestsOf, pageRequests, hel, hl, hd, hp, hr]
            · by_cases hj : j = pageId
              · exact Or.inr ⟨hj, by rw [hj]; exact h4⟩
              · exact Or.inl (h5 j hj)

theorem fetchCount_eq_countP (url : String) (es : List Event) :
    fetchCount url es = (requestsOf es).countP (fun r => r.url = url) := by
  induction es with
  | nil => rfl
  | cons e rest ih =>
    cases e with
    | fetch r =>
      by_cases h : r.url = url <;> simp [fetchCount, requestsOf, ih, h, Nat.add_comm]
    | _ => simp [fetchCount, requestsOf, ih]

theorem runSession_loaded_sticky (env : Env) (j : String) :
    ∀ (ps : List String) (w : World), w.loadedFlag j = some (some "true") →
      (runSession env ps w).loadedFlag j = some (some "true") := by
  intro ps
  induction ps with
  | nil => intro w h; exact h
  | cons p rest ih =>
    intro w h
    obtain ⟨_, _, _, h3, _⟩ := loadPageData_step env w p
    apply ih
    rcases h3 j with h' | ⟨_, h'⟩
    · rw [h', h]
    · exact h'

theorem pageRequests_loaded (w : World) (pageId : String)
    (h : w.loadedFlag pageId = some (some "true")) : pageRequests w pageId = [] := by
  unfold pageRequests
  cases hel : w.dom pageId with
  | none => rfl
  | some el =>
    have : el.loaded = some "true" := by simpa [World.loadedFlag, hel] using h
    simp [this]

theorem session_count_loaded (env : Env) (u q : String)
    (hown : ∀ (w : World) (pageId : String), pageId ≠ q →
      (pageRequests w pageId).countP (fun r => r.url = u) = 0) :
    ∀ (ps : List String) (w : World), w.loadedFlag q = some (some "true") →
      fetchCount u (runSession env ps w).trace = fetchCount u w.trace := by
  intro ps
  induction ps with
  | nil => intro w _; rfl
  | cons p rest ih =>
    intro w h
    obtain ⟨evs, h1, h2, h3, _⟩ := loadPageData_step env w p
    have hflag : (loadPageData env p w).2.loadedFlag q = some (some "true") := by
      rcases h3 q with h' | ⟨_, h'⟩
      · rw [h', h]
      · exact h'
    show fetchCount u (runSession env rest (loadPageData env p w).2).trace = _
    rw [ih _ hflag, h1, fetchCount_append, fetchCount_eq_countP u evs, h2]
    by_cases hp : p = q
    · subst hp; simp [pageRequests_loaded w p h]
    · simp [hown w p hp]

theorem failedLoads_append (q : String) (a b : List Event) :
    failedLoads q (a ++ b) = failedLoads q a + failedLoads q b := by
  simp [failedLoads]

theorem runSession_trace_grows (env : Env) :
    ∀ (ps : List String) (w : World), ∃ evs, (runSession env ps w).trace = w.trace ++ evs := by
  intro ps
  induction ps with
  | nil => intro w; exact ⟨[], by simp [runSession]⟩
  | cons p rest ih =>
    intro w
    obtain ⟨evs, h1, _⟩ := loadPageData_step env w p
    obtain ⟨evs', h'⟩ := ih (loadPageData env p w).2
    exact ⟨evs ++ evs', by simp only [runSession]; rw [h', h1, List.append_assoc]⟩

theorem session_count_failed (env : Env) (u q : String)
    (hown : ∀ (w : World) (pageId : String), pageId ≠ q →
      (pageRequests w pageId).countP (fun r => r.url = u) = 0)
    (hone : ∀ w : World, (pageRequests w q).countP (fun r => r.url = u) ≤ 1) :
    ∀ (ps : List String) (w : World),
      fetchCount u (runSession env ps w).trace + failedLoads q w.trace ≤
        fetchCount u w.trace + failedLoads q (runSession env ps w).trace + 1 := by
  intro ps
  induction ps with
  | nil => intro w; simp [runSession]
  | cons p rest ih =>
    intro w
    obtain ⟨evs, h1, h2, h3, h4⟩ := loadPageData_step env w p
    show fetchCount _ (runSession env rest (loadPageData env p w).2).trace + _ ≤
      _ + failedLoads q (runSession env rest (loadPageData env p w).2).trace + 1
    have hcount : fetchCount u (loadPageData env p w).2.trace =
        fetchCount u w.trace + (pageRequests w p).countP (fun r => r.url = u) := by
      rw [h1, fetchCount_append, fetchCount_eq_countP _ evs, h2]
    have hfail : failedLoads q (loadPageData env p w).2.trace =
        failedLoads q w.trace + failedLoads q evs := by
      rw [h1, failedLoads_append]
    have hih := ih (loadPageData env p w).2
    obtain ⟨evs', hgrow⟩ := runSession_trace_grows env rest (loadPageData env p w).2
    have hmono : failedLoads q (loadPageData env p w).2.trace ≤
        failedLoads q (runSession env rest (loadPageData env p w).2).trace := by
      rw [hgrow, failedLoads_append]; exact Nat.le_add_right _ _
    by_cases hp : p = q
    · subst hp
      have hle := hone w
      by_cases hreq : pageRequests w p = []
      · rw [hcount, hreq] at hih
        simp only [List.countP_nil, Nat.add_zero] at hih
        omega
      · rcases h4 hreq with hflag | hlog
        · have hsame := session_count_loaded env u p hown rest _ hflag
          rw [hsame, hcount]
          omega
        · have hpos : 1 ≤ failedLoads p evs := by
            unfold failedLoads
            exact List.count_pos_iff.mpr hlog
          rw [hcount] at hih
          omega
    · rw [hcount, hown w p hp] at hih
      omega

theorem ownRequests_organizations (w : World) (pageId : String) (h : pageId ≠ "recovery") :
    (pageRequests w pageId).countP (fun r => r.url = getOrganizations.request.url) = 0 := by
  unfold pageRequests
  cases w.dom pageId with
  | none => rfl
  | some el =>
    simp only [h, if_false]
    split
    · rfl
    · split
      · decide
      · split
        · decide
        · rfl

theorem oneRequest_organizations (w : World) :
    (pageRequests w "recovery").countP
      (fun r => r.url = getOrganizations.request.url) ≤ 1 := by
  unfold pageRequests
  cases w.dom "recovery" with
  | none => simp
  | some el => by_cases hl : el.loaded = some "true" <;> simp [hl]

theorem ownRequests_twoSource (p : TwoSourcePage) (u : String)
    (hu : u = p.firstCall.request.url ∨ u = p.secondCall.request.url) (w : World)
    (pageId : String) (h : pageId ≠ p.id) :
    (pageRequests w pageId).countP (fun r => r.url = u) = 0 := by
  unfold pageRequests
  cases w.dom pageId with
  | none => rfl
  | some el =>
    simp only
    split
    · rfl
    · cases p <;> rcases hu with hu | hu <;> subst hu <;>
        simp only [TwoSourcePage.id] at h <;> simp only [h, if_false] <;>
        (repeat' split) <;> rfl

theorem oneRequest_twoSource (p : TwoSourcePage) (u : String) (w : World) :
    (pageRequests w p.id).countP (fun r => r.url = u) ≤ 1 ∨
      u ∉ [p.firstCall.request.url, p.secondCall.request.url] := by
  by_cases hu : u ∈ [p.firstCall.request.url, p.secondCall.request.url]
  · left
    simp only [List.mem_cons, List.mem_singleton, List.not_mem_nil, or_false] at hu
    unfold pageRequests
    cases w.dom p.id with
    | none => simp
    | some el =>
      simp only
      split
      · simp
      · cases p <;> rcases hu with hu | hu <;> subst hu <;> decide
  · exact Or.inr hu

/-- Counterexample to claim C4 as stated: on a backend that never answers, two activations
of the recovery page in one session request the organizations twice; and on a backend
whose news answer is an object, on which the render collaborator throws, two activations
of the dashboard request the news twice. -/
theorem C4_counterexample :
    fetchCount getOrganizations.request.url
      (runSession timeoutEnv ["recovery", "recovery"] freshWorld).trace = 2 ∧
    fetchCount (getNews (some "India")).request.url
      (runSession wrappedNewsEnv ["dashboard", "dashboard"] freshWorld).trace = 2 := by
  decide

/-- Claim C4, amended. Over every session of `loadPageData` calls, each completing before
the next starts, whatever the fetch outcomes and whatever the render collaborators do:
each data source of a page (news and shelters of the dashboard, kit items and instructions
of the prepare page, organizations of the recovery page) is requested at most once more
than the number of loads of that page that failed. A failed load, one whose routine threw
(the fetch of the organizations failed, or a render collaborator threw), leaves the page
not loaded and is logged as `Failed to load data for <page>:`; the next activation of the
page fetches again. -/
theorem C4_sources_requested_once_unless_failed (env : Env) (ps : List String) (w : World)
    (hfresh : w.trace = []) :
    (∀ (p : TwoSourcePage) (u : String),
      u = p.firstCall.request.url ∨ u = p.secondCall.request.url →
      fetchCount u (runSession env ps w).trace ≤
        1 + failedLoads p.id (runSession env ps w).trace) ∧
    fetchCount getOrganizations.request.url (runSession env ps w).trace ≤
      1 + failedLoads "recovery" (runSession env ps w).trace := by
  constructor
  · intro p u hu
    have hone : ∀ w : World, (pageRequests w p.id).countP (fun r => r.url = u) ≤ 1 := by
      intro w'
      rcases oneRequest_twoSource p u w' with h | h
      · exact h
      · exact absurd (by simpa using hu) h
    have := session_count_failed env u p.id (ownRequests_twoSource p u hu) hone ps w
    simp only [hfresh, fetchCount, failedLoads, errorLogs, List.count_nil,
      Nat.add_zero, Nat.zero_add] at this
    unfold failedLoads
    omega
  · have := session_count_failed env getOrganizations.request.url "recovery"
      ownRequests_organizations oneRequest_organizations ps w
    simp only [hfresh, fetchCount, failedLoads, errorLogs, List.count_nil,
      Nat.add_zero, Nat.zero_add] at this
    unfold failedLoads
    omega

/-- Witness of claim C4 (amended): the session of the counterexample, with two failed loads
of the recovery page and two requests. -/
theorem C4_witness :
    freshWorld.trace = [] ∧
    fetchCount getOrganizations.request.url
        (runSession timeoutEnv ["recovery", "recovery"] freshWorld).trace ≤
      1 + failedLoads "recovery"
        (runSession timeoutEnv ["recovery", "recovery"] freshWorld).trace :=
  ⟨rfl, (C4_sources_requested_once_unless_failed timeoutEnv ["recovery", "recovery"]
    freshWorld rfl).2⟩

theorem jsTrimChars_eq_nil (s : List Char) :
    jsTrimChars s = [] ↔ s.all isJSWhitespace = true := by
  unfold jsTrimChars
  rw [List.reverse_eq_nil_iff, List.dropWhile_eq_nil_iff]
  constructor
  · intro h
    have hd : s.dropWhile isJSWhitespace = [] := by
      cases hs : s.dropWhile isJSWhitespace with
      | nil => rfl
      | cons a rest =>
        have h1 : isJSWhitespace a = true :=
          h a (by rw [hs]; simp)
        have h2 := List.head_dropWhile_not isJSWhitespace s (by rw [hs]; simp)
        simp only [hs, List.head_cons] at h2
        rw [h1] at h2
        exact absurd h2 (by simp)
    rw [List.all_eq_true]
    exact List.dropWhile_eq_nil_iff.mp hd
  · intro h x hx
    have hd : s.dropWhile isJSWhitespace = [] :=
      List.dropWhile_eq_nil_iff.mpr (List.all_eq_true.mp h)
    rw [hd] at hx
    simp at hx

theorem isMissing_eq_isBlank (f : Option String) : isMissing f = isBlank f := by
  cases f with
  | none => rfl
  | some s =>
    simp only [isMissing, isBlank, jsTrim]
    congr 1
    rw [Bool.eq_iff_iff]
    simp only [beq_iff_eq]
    rw [← jsTrimChars_eq_nil]
    constructor
    · intro h; exact congrArg String.data h
    · intro h; exact String.ext h

theorem aid_missingFields (d : AidRequestData) :
    ["name", "location", "aid_needed"].filter (fun field => isMissing (d.get field)) =
      blankFieldNames d.required := by
  simp only [blankFieldNames, AidRequestData.required, isMissing_eq_isBlank, List.filter,
    AidRequestData.get]
  simp only [show ("location" = "name") = False by decide,
    show ("aid_needed" = "name") = False by decide,
    show ("aid_needed" = "location") = False by decide, if_true, if_false]
  cases isBlank d.name <;> cases isBlank d.location <;> cases isBlank d.aid_needed <;> rfl

theorem sos_missingFields (d : SOSData) :
    ["name", "phone", "location", "emergency_type", "message"].filter
        (fun field => isMissing (d.get field)) =
      blankFieldNames d.required := by
  simp only [blankFieldNames, SOSData.required, isMissing_eq_isBlank, List.filter,
    SOSData.get]
  simp only [show ("phone" = "name") = False by decide,
    show ("location" = "name") = False by decide,
    show ("location" = "phone") = False by decide,
    show ("emergency_type" = "name") = False by decide,
    show ("emergency_type" = "phone") = False by decide,
    show ("emergency_type" = "location") = False by decide,
    show ("message" = "name") = False by decide,
    show ("message" = "phone") = False by decide,
    show ("message" = "location") = False by decide,
    show ("message" = "emergency_type") = False by decide, if_true, if_false]
  cases isBlank d.name <;> cases isBlank d.phone <;> cases isBlank d.location <;>
    cases isBlank d.emergency_type <;> cases isBlank d.message <;> rfl

theorem run_wrap (env : Env) (r : Request) (logText label : String) (w : World) :
    ApiCall.run env { request := r, onSettle := wrapFailure logText label } w =
      match fetchSettle (env.net w.netCount r) with
      | .ok v =>
        (.ok v, { w with netCount := w.netCount + 1, trace := w.trace ++ [Event.fetch r] })
      | .error e =>
        (.error (mkError (label ++ ": " ++ e.message)),
          { w with
            netCount := w.netCount + 1,
            trace := w.trace ++ [Event.fetch r, Event.console Level.error logText] }) := by
  simp only [ApiCall.run, bind_eq, issue, wrapFailure_eq]
  cases fetchSettle (env.net w.netCount r) <;> simp [World.emit]

theorem fetchFromAPI_eq (env : Env) (r : Request) (w : World) :
    fetchFromAPI env r w =
      (fetchSettle (env.net w.netCount r),
        { w with netCount := w.netCount + 1, trace := w.trace ++ [Event.fetch r] }) := by
  simp only [fetchFromAPI, bind_eq, issue, liftExcept]

theorem run_wrap_eq_tryCatch (env : Env) (r : Request) (logText label : String) :
    ApiCall.run env { request := r, onSettle := wrapFailure logText label } =
      tryCatch (fetchFromAPI env r) (fun error => do
        emit (.console .error logText)
        throwJS (mkError (label ++ ": " ++ error.message))) := by
  funext w
  rw [run_wrap]
  simp only [tryCatch, fetchFromAPI_eq]
  cases fetchSettle (env.net w.netCount r) <;> simp [bind_eq, emit, World.emit, throwJS]

theorem submitAidRequest_blank (env : Env) (d : AidRequestData) (w : World)
    (h : blankFieldNames d.required ≠ []) :
    submitAidRequest env d w =
      (.error (mkError ("Please fill in all required fields: " ++
        ", ".intercalate (blankFieldNames d.required))), w) := by
  have hlen : (blankFieldNames d.required).length > 0 := List.length_pos.mpr h
  simp only [submitAidRequest, aid_missingFields, hlen, if_true]
  rfl

theorem submitAidRequest_filled (env : Env) (n l a : String) (w : World)
    (hn : isBlank (some n) = false) (hl : isBlank (some l) = false)
    (ha : isBlank (some a) = false) :
    submitAidRequest env ⟨some n, some l, some a⟩ w =
      if jsLength n > 255 then (.error (mkError "Name must be less than 255 characters"), w)
      else if jsLength l > 1000 then
        (.error (mkError "Location description must be less than 1000 characters"), w)
      else if jsLength a > 1000 then
        (.error (mkError "Aid description must be less than 1000 characters"), w)
      else
        ApiCall.run env
          { request := postRequest "/recover/request-aid" (.aid ⟨some n, some l, some a⟩),
            onSettle :=
              wrapFailure "Error submitting aid request:" "Failed to submit aid request" }
          w := by
  have hb : blankFieldNames (AidRequestData.required ⟨some n, some l, some a⟩) = [] := by
    simp [blankFieldNames, AidRequestData.required, hn, hl, ha]
  simp only [submitAidRequest, aid_missingFields, hb, List.length_nil, gt_iff_lt,
    Nat.lt_irrefl, if_false, lengthOf, bind_eq, pure_eq]
  by_cases h1 : 255 < jsLength n
  · simp [h1, throwJS]
  · by_cases h2 : 1000 < jsLength l
    · simp [h1, h2, throwJS, bind_eq, pure_eq]
    · by_cases h3 : 1000 < jsLength a
      · simp [h1, h2, h3, throwJS, bind_eq, pure_eq]
      · simp [h1, h2, h3, bind_eq, pure_eq]

theorem sendSOSAlert_blank (env : Env) (d : SOSData) (w : World)
    (h : blankFieldNames d.required ≠ []) :
    sendSOSAlert env d w =
      (.error (mkError ("Please fill in all required fields: " ++
        ", ".intercalate (blankFieldNames d.required))), w) := by
  have hlen : (blankFieldNames d.required).length > 0 := List.length_pos.mpr h
  simp only [sendSOSAlert, sos_missingFields, hlen, if_true]
  rfl

theorem sendSOSAlert_filled (env : Env) (d : SOSData) (phone : String) (w : World)
    (h : blankFieldNames d.required = []) (hph : d.phone = some phone) :
    sendSOSAlert env d w =
      if phoneRegexTest phone then
        ApiCall.run env
          { request := postRequest "/respond/sos" (.sos d),
            onSettle := wrapFailure "Error sending SOS alert:" "Failed to send SOS alert" } w
      else (.error (mkError "Please enter a valid phone number"), w) := by
  simp only [sendSOSAlert, sos_missingFields, h, List.length_nil, gt_iff_lt, Nat.lt_irrefl,
    if_false, hph, Option.getD_some]
  cases phoneRegexTest phone <;> simp [throwJS]

theorem phoneClass_iff (c : Char) :
    phoneClass c = true ↔
      (c.isDigit = true ∨ isJSWhitespace c = true ∨ c = '-' ∨ c = '(' ∨ c = ')') := by
  simp [phoneClass, or_assoc]

theorem phoneRun_iff (r : List Char) :
    phoneRun r = true ↔ 10 ≤ r.length ∧
      ∀ c ∈ r, c.isDigit = true ∨ isJSWhitespace c = true ∨ c = '-' ∨ c = '(' ∨ c = ')' := by
  simp only [phoneRun, Bool.and_eq_true, decide_eq_true_eq, List.all_eq_true, phoneClass_iff]

theorem phoneRegexTest_iff (s : String) : phoneRegexTest s = true ↔ PhonePattern s := by
  unfold phoneRegexTest PhonePattern
  rw [Bool.or_eq_true]
  constructor
  · rintro (h | h)
    · split at h
      · next r hr => exact ⟨r, Or.inl hr, (phoneRun_iff r).mp h⟩
      · exact absurd h (by simp)
    · exact ⟨s.data, Or.inr rfl, (phoneRun_iff _).mp h⟩
  · rintro ⟨rest, hs | hs, hlen, hall⟩
    · left
      rw [hs]
      exact (phoneRun_iff rest).mpr ⟨hlen, hall⟩
    · right
      rw [hs]
      exact (phoneRun_iff rest).mpr ⟨hlen, hall⟩

/-- Claim C6. An aid request in which at least one of name, location, aid_needed is absent,
empty or white space only makes `submitAidRequest` throw the error whose message is
`Please fill in all required fields: ` followed by the names of exactly those fields,
comma-separated in the order name, location, aid_needed; the world is unchanged, so no
request is sent. -/
theorem C6_aid_request_missing_fields (env : Env) (d : AidRequestData) (w : World)
    (h : isBlank d.name = true ∨ isBlank d.location = true ∨ isBlank d.aid_needed = true) :
    submitAidRequest env d w =
      (.error (mkError ("Please fill in all required fields: " ++
        ", ".intercalate (blankFieldNames d.required))), w) := by
  apply submitAidRequest_blank
  intro hnil
  simp only [blankFieldNames, AidRequestData.required, List.map_eq_nil_iff,
    List.filter_eq_nil_iff, List.mem_cons, List.mem_singleton, List.not_mem_nil,
    or_false] at hnil
  rcases h with h | h | h
  · exact hnil ("name", d.name) (Or.inl rfl) h
  · exact hnil ("location", d.location) (Or.inr (Or.inl rfl)) h
  · exact hnil ("aid_needed", d.aid_needed) (Or.inr (Or.inr rfl)) h

/-- Witness of claim C6: the request `{name: "", location: "x", aid_needed: "y"}` is such a
request, names only `name`, and leaves the world as it was. -/
theorem C6_witness :
    isBlank aidExample.name = true ∧
    blankFieldNames aidExample.required = ["name"] ∧
    submitAidRequest healthyEnv aidExample freshWorld =
      (.error (mkError "Please fill in all required fields: name"), freshWorld) :=
  ⟨by decide, by decide,
    C6_aid_request_missing_fields healthyEnv aidExample freshWorld (Or.inl (by decide))⟩

/-- Claim C7. An SOS alert whose five required fields are all filled and whose phone does
not match the pattern (an optional leading plus sign, then at least 10 characters each a
digit, white space, hyphen or parenthesis) makes `sendSOSAlert` throw `Please enter a valid
phone number`; the world is unchanged, so no request is sent. -/
theorem C7_invalid_phone_rejected (env : Env) (d : SOSData) (phone : String) (w : World)
    (hfilled : ∀ f ∈ d.required, isBlank f.2 = false) (hph : d.phone = some phone)
    (hbad : ¬ PhonePattern phone) :
    sendSOSAlert env d w = (.error (mkError "Please enter a valid phone number"), w) := by
  have hb : blankFieldNames d.required = [] := by
    simp only [blankFieldNames, List.map_eq_nil_iff, List.filter_eq_nil_iff]
    intro f hf
    simp [hfilled f hf]
  rw [sendSOSAlert_filled env d phone w hb hph]
  have : phoneRegexTest phone = false := by
    cases hr : phoneRegexTest phone with
    | false => rfl
    | true => exact absurd ((phoneRegexTest_iff phone).mp hr) hbad
  simp [this]

/-- Witness of claim C7: the phone number `123`. -/
theorem C7_witness :
    (∀ f ∈ sosShortPhone.required, isBlank f.2 = false) ∧
    ¬ PhonePattern "123" ∧
    sendSOSAlert healthyEnv sosShortPhone freshWorld =
      (.error (mkError "Please enter a valid phone number"), freshWorld) :=
  ⟨by decide, fun h => absurd ((phoneRegexTest_iff "123").mpr h) (by decide),
    C7_invalid_phone_rejected healthyEnv sosShortPhone "123" freshWorld (by decide) rfl
      (fun h => absurd ((phoneRegexTest_iff "123").mpr h) (by decide))⟩

theorem run_wrap_netCount (env : Env) (r : Request) (logText label : String) (w : World) :
    (ApiCall.run env { request := r, onSettle := wrapFailure logText label } w).2.netCount =
      w.netCount + 1 := by
  rw [run_wrap]
  cases fetchSettle (env.net w.netCount r) <;> rfl

theorem run_wrap_trace (env : Env) (r : Request) (logText label : String) (w : World) :
    ∃ evs, (ApiCall.run env { request := r, onSettle := wrapFailure logText label }
        w).2.trace = w.trace ++ Event.fetch r :: evs ∧ requestsOf evs = [] := by
  rw [run_wrap]
  cases fetchSettle (env.net w.netCount r) with
  | ok v => exact ⟨[], rfl, rfl⟩
  | error e => exact ⟨[Event.console Level.error logText], by simp, rfl⟩

theorem blankFieldNames_sos_nil (d : SOSData) (h : blankFieldNames d.required = []) :
    ∀ f ∈ d.required, isBlank f.2 = false := by
  simp only [blankFieldNames, List.map_eq_nil_iff, List.filter_eq_nil_iff] at h
  intro f hf
  simpa using h f hf

/-- Counterexample to claim C8 as stated: a phone field of ten hyphens has no digit, passes
the validation, and the POST to `/respond/sos` is sent. -/
theorem C8_counterexample :
    digitCount "----------" = 0 ∧
    succeeded (sendSOSAlert healthyEnv sosHyphens freshWorld).1 = true ∧
    requestsOf (sendSOSAlert healthyEnv sosHyphens freshWorld).2.trace =
      [postRequest "/respond/sos" (.sos sosHyphens)] := by
  decide

/-- Claim C8, amended. Every phone value that `sendSOSAlert` accepts (a request is sent) is
a string that is not blank and matches the pattern: an optional leading plus sign, then at
least 10 characters each of which is a digit, white space, a hyphen or a parenthesis. The
pattern counts characters of that class, not digits. -/
theorem C8_accepted_phone_matches_pattern (env : Env) (d : SOSData) (w : World)
    (h : (sendSOSAlert env d w).2.netCount = w.netCount + 1) :
    ∃ phone, d.phone = some phone ∧ isBlank (some phone) = false ∧ PhonePattern phone := by
  by_cases hb : blankFieldNames d.required = []
  · have hfilled := blankFieldNames_sos_nil d hb
    have hphone : isBlank d.phone = false :=
      hfilled ("phone", d.phone) (by simp [SOSData.required])
    cases hph : d.phone with
    | none => rw [hph] at hphone; exact absurd hphone (by decide)
    | some phone =>
      rw [hph] at hphone
      refine ⟨phone, rfl, hphone, ?_⟩
      rw [sendSOSAlert_filled env d phone w hb hph] at h
      cases hr : phoneRegexTest phone with
      | true => exact (phoneRegexTest_iff phone).mp hr
      | false =>
        rw [hr] at h
        simp at h
  · rw [sendSOSAlert_blank env d w hb] at h
    simp at h

/-- Witness of claim C8 (amended): the alert with ten hyphens is accepted. -/
theorem C8_witness :
    (sendSOSAlert healthyEnv sosHyphens freshWorld).2.netCount = freshWorld.netCount + 1 ∧
    ∃ phone, sosHyphens.phone = some phone ∧ isBlank (some phone) = false ∧
      PhonePattern phone :=
  ⟨by decide, C8_accepted_phone_matches_pattern healthyEnv sosHyphens freshWorld (by decide)⟩

/-- Claim C9. For an aid request whose name, location and aid_needed are filled strings,
`submitAidRequest` sends the POST to `/recover/request-aid` exactly when the name has at
most 255 and location and aid_needed at most 1000 characters (UTF-16 code units, as
`.length` counts them); otherwise it throws and the world is unchanged, so no request is
sent. -/
theorem C9_aid_request_length_ceilings (env : Env) (n l a : String) (w : World)
    (hn : isBlank (some n) = false) (hl : isBlank (some l) = false)
    (ha : isBlank (some a) = false) :
    ((submitAidRequest env ⟨some n, some l, some a⟩ w).2.netCount = w.netCount + 1 ↔
      (jsLength n ≤ 255 ∧ jsLength l ≤ 1000 ∧ jsLength a ≤ 1000)) ∧
    ((jsLength n ≤ 255 ∧ jsLength l ≤ 1000 ∧ jsLength a ≤ 1000) →
      ∃ evs, (submitAidRequest env ⟨some n, some l, some a⟩ w).2.trace =
          w.trace ++ Event.fetch (postRequest "/recover/request-aid"
            (.aid ⟨some n, some l, some a⟩)) :: evs ∧ requestsOf evs = []) ∧
    (¬ (jsLength n ≤ 255 ∧ jsLength l ≤ 1000 ∧ jsLength a ≤ 1000) →
      succeeded (submitAidRequest env ⟨some n, some l, some a⟩ w).1 = false ∧
      (submitAidRequest env ⟨some n, some l, some a⟩ w).2 = w) := by
  rw [submitAidRequest_filled env n l a w hn hl ha]
  by_cases h1 : 255 < jsLength n
  · simp only [gt_iff_lt, h1, if_true]
    refine ⟨⟨fun h => absurd h (by simp), fun h => by omega⟩, fun h => by omega,
      fun _ => ⟨rfl, trivial⟩⟩
  · by_cases h2 : 1000 < jsLength l
    · simp only [gt_iff_lt, h1, h2, if_true, if_false]
      refine ⟨⟨fun h => absurd h (by simp), fun h => by omega⟩, fun h => by omega,
        fun _ => ⟨rfl, trivial⟩⟩
    · by_cases h3 : 1000 < jsLength a
      · simp only [gt_iff_lt, h1, h2, h3, if_true, if_false]
        refine ⟨⟨fun h => absurd h (by simp), fun h => by omega⟩, fun h => by omega,
          fun _ => ⟨rfl, trivial⟩⟩
      · simp only [gt_iff_lt, h1, h2, h3, if_false]
        refine ⟨⟨fun _ => by omega, fun _ => run_wrap_netCount _ _ _ _ _⟩,
          fun _ => run_wrap_trace _ _ _ _ _, fun h => absurd (by omega) h⟩

/-- Witness of claim C9: a short aid request is sent. -/
theorem C9_witness :
    isBlank (some "Asha") = false ∧ isBlank (some "Bhubaneswar") = false ∧
    isBlank (some "Drinking water") = false ∧
    ((submitAidRequest healthyEnv ⟨some "Asha", some "Bhubaneswar", some "Drinking water"⟩
        freshWorld).2.netCount = freshWorld.netCount + 1 ↔
      (jsLength "Asha" ≤ 255 ∧ jsLength "Bhubaneswar" ≤ 1000 ∧
        jsLength "Drinking water" ≤ 1000)) :=
  ⟨by decide, by decide, by decide,
    (C9_aid_request_length_ceilings healthyEnv "Asha" "Bhubaneswar" "Drinking water"
      freshWorld (by decide) (by decide) (by decide)).1⟩

set_option maxRecDepth 100000 in
/-- Counterexample to claim C10 as stated: an SOS alert whose name has 256 characters passes
the validation and the POST to `/respond/sos` is sent. -/
theorem C10_counterexample :
    (sosLongName.name.map jsLength) = some 256 ∧
    succeeded (sendSOSAlert healthyEnv sosLongName freshWorld).1 = true ∧
    requestsOf (sendSOSAlert healthyEnv sosLongName freshWorld).2.trace =
      [postRequest "/respond/sos" (.sos sosLongName)] := by
  decide

/-- Claim C10, amended. `sendSOSAlert` has no length ceiling: whatever the lengths of name
and location, an SOS alert whose five required fields are filled and whose phone matches
the pattern is sent as a POST to `/respond/sos`; an alert is rejected with the world
unchanged exactly when a required field is blank or the phone does not match. The length
ceilings belong to `submitAidRequest` only. -/
theorem C10_sos_has_no_length_ceiling (env : Env) (d : SOSData) (phone : String) (w : World)
    (hph : d.phone = some phone) :
    ((∀ f ∈ d.required, isBlank f.2 = false) ∧ PhonePattern phone →
      ∃ evs, (sendSOSAlert env d w).2.trace =
          w.trace ++ Event.fetch (postRequest "/respond/sos" (.sos d)) :: evs ∧
        requestsOf evs = []) ∧
    (¬ ((∀ f ∈ d.required, isBlank f.2 = false) ∧ PhonePattern phone) →
      succeeded (sendSOSAlert env d w).1 = false ∧ (sendSOSAlert env d w).2 = w) := by
  by_cases hb : blankFieldNames d.required = []
  · have hfilled := blankFieldNames_sos_nil d hb
    rw [sendSOSAlert_filled env d phone w hb hph]
    cases hr : phoneRegexTest phone with
    | true =>
      have hp := (phoneRegexTest_iff phone).mp hr
      rw [if_pos rfl]
      exact ⟨fun _ => run_wrap_trace _ _ _ _ _, fun h => absurd ⟨hfilled, hp⟩ h⟩
    | false =>
      have hp : ¬ PhonePattern phone := fun h => by
        rw [(phoneRegexTest_iff phone).mpr h] at hr
        exact absurd hr (by decide)
      rw [if_neg (by simp)]
      exact ⟨fun h => absurd h.2 hp, fun _ => ⟨rfl, rfl⟩⟩
  · rw [sendSOSAlert_blank env d w hb]
    refine ⟨fun h => absurd ?_ hb, fun _ => ⟨rfl, rfl⟩⟩
    simp only [blankFieldNames, List.map_eq_nil_iff, List.filter_eq_nil_iff]
    intro f hf
    simp [h.1 f hf]

set_option maxRecDepth 100000 in
/-- Witness of claim C10 (amended): the alert with the name of 256 characters is sent. -/
theorem C10_witness :
    sosLongName.phone = some "+91 98765 43210" ∧
    (∀ f ∈ sosLongName.required, isBlank f.2 = false) ∧
    PhonePattern "+91 98765 43210" ∧
    ∃ evs, (sendSOSAlert healthyEnv sosLongName freshWorld).2.trace =
        freshWorld.trace ++
          Event.fetch (postRequest "/respond/sos" (.sos sosLongName)) :: evs ∧
      requestsOf evs = [] :=
  ⟨rfl, by decide, (phoneRegexTest_iff "+91 98765 43210").mp (by decide),
    (C10_sos_has_no_length_ceiling healthyEnv sosLongName "+91 98765 43210" freshWorld
      rfl).1 ⟨by decide, (phoneRegexTest_iff "+91 98765 43210").mp (by decide)⟩⟩

/-- Counterexample to claim C11 as stated: `getNews` with a location of one space sends the
request. -/
theorem C11_counterexample :
    isBlank (some " ") = true ∧
    requestsOf ((getNews (some " ")).run healthyEnv freshWorld).2.trace =
      [getRequest "/prepare/news?location=%20"] := by
  decide

/-- Claim C11, amended. For a location that is absent, empty or white space only,
`getLocationNews` throws `Location is required` with the world unchanged, so it sends no
request. `getNews` does not validate its location, which defaults to `India` when omitted:
it sends its request whatever the location. -/
theorem C11_location_validated_by_getLocationNews_only (env : Env) (location : Option String)
    (category : Option String) (w : World) (h : isBlank location = true) :
    getLocationNews env location category w = (.error (mkError "Location is required"), w) ∧
    ∃ evs, ((getNews location).run env w).2.trace =
        w.trace ++ Event.fetch (getNews location).request :: evs ∧ requestsOf evs = [] := by
  constructor
  · simp only [getLocationNews, isMissing_eq_isBlank, h, if_true]
    rfl
  · exact run_wrap_trace env _ _ _ w

/-- Witness of claim C11 (amended): the location of one space. -/
theorem C11_witness :
    isBlank (some " ") = true ∧
    getLocationNews healthyEnv (some " ") none freshWorld =
      (.error (mkError "Location is required"), freshWorld) :=
  ⟨by decide,
    (C11_location_validated_by_getLocationNews_only healthyEnv (some " ") none freshWorld
      (by decide)).1⟩

/-- Claim C12, the code at the failing input: on a backend that answers `404 Not Found`
with the body `{"error": "Resource missing"}`, the message of the error does not contain
`404`, and `getNewsWithRetry` makes three attempts with waits of 1000 and 2000
milliseconds before it fails. -/
theorem C12_not_found_with_error_body_is_retried :
    (requestsOf (getNewsWithRetry notFoundEnv (some "India") freshWorld).2.trace).length = 3 ∧
    sleepsOf (getNewsWithRetry notFoundEnv (some "India") freshWorld).2.trace = [1000, 2000] ∧
    (getNewsWithRetry notFoundEnv (some "India") freshWorld).1 =
      .error (some (mkError "Failed to fetch news: Resource missing")) := by
  refine ⟨by decide, by decide, rfl⟩

/-- Claim C15, the code at the failing input: on a backend that answers `500 Internal
Server Error` with the body `{"error": "Upstream returned 404"}`, the message of the error
contains `404`, and `getNewsWithRetry` stops after one attempt, without a wait. -/
theorem C15_server_error_quoting_404_is_not_retried :
    (requestsOf (getNewsWithRetry upstreamErrorEnv (some "India") freshWorld).2.trace).length
      = 1 ∧
    sleepsOf (getNewsWithRetry upstreamErrorEnv (some "India") freshWorld).2.trace = [] ∧
    (getNewsWithRetry upstreamErrorEnv (some "India") freshWorld).1 =
      .error (some (mkError "Failed to fetch news: Upstream returned 404")) := by
  refine ⟨by decide, by decide, rfl⟩

/-- Claim C16. When the HTTP client fails with an error of message `m`, each of `getNews`,
`getKitItems`, `getInstructions`, `getShelters`, `getOrganizations`, `sendSOSAlert` and
`submitAidRequest` (the last two on valid input) throws an error whose message is its fixed
label, then `: `, then `m`. -/
theorem C16_failure_wrapped_with_label (env : Env) (w : World) (e : JSError)
    (location : Option String) (sos : SOSData) (phone : String) (n l a : String)
    (hfail : ∀ r, (fetchFromAPI env r w).1 = .error e)
    (hsos : ∀ f ∈ sos.required, isBlank f.2 = false) (hph : sos.phone = some phone)
    (hpat : PhonePattern phone)
    (hn : isBlank (some n) = false) (hl : isBlank (some l) = false)
    (ha : isBlank (some a) = false)
    (hlen : jsLength n ≤ 255 ∧ jsLength l ≤ 1000 ∧ jsLength a ≤ 1000) :
    ((getNews location).run env w).1 =
      .error (mkError ("Failed to fetch news" ++ ": " ++ e.message)) ∧
    (getKitItems.run env w).1 =
      .error (mkError ("Failed to fetch emergency kit items" ++ ": " ++ e.message)) ∧
    (getInstructions.run env w).1 =
      .error (mkError ("Failed to fetch safety instructions" ++ ": " ++ e.message)) ∧
    (getShelters.run env w).1 =
      .error (mkError ("Failed to fetch shelter information" ++ ": " ++ e.message)) ∧
    (getOrganizations.run env w).1 =
      .error (mkError ("Failed to fetch recovery organizations" ++ ": " ++ e.message)) ∧
    (sendSOSAlert env sos w).1 =
      .error (mkError ("Failed to send SOS alert" ++ ": " ++ e.message)) ∧
    (submitAidRequest env ⟨some n, some l, some a⟩ w).1 =
      .error (mkError ("Failed to submit aid request" ++ ": " ++ e.message)) := by
  have hb : blankFieldNames sos.required = [] := by
    simp only [blankFieldNames, List.map_eq_nil_iff, List.filter_eq_nil_iff]
    intro f hf
    simp [hsos f hf]
  obtain ⟨h1, h2, h3⟩ := hlen
  simp only [fetchFromAPI_eq] at hfail
  refine ⟨?_, ?_, ?_, ?_, ?_, ?_, ?_⟩
  · simp only [getNews, run_wrap, hfail]
  · simp only [getKitItems, run_wrap, hfail]
  · simp only [getInstructions, run_wrap, hfail]
  · simp only [getShelters, run_wrap, hfail]
  · simp only [getOrganizations, run_wrap, hfail]
  · rw [sendSOSAlert_filled env sos phone w hb hph, (phoneRegexTest_iff phone).mpr hpat]
    simp only [if_true, run_wrap, hfail]
  · rw [submitAidRequest_filled env n l a w hn hl ha]
    simp only [gt_iff_lt, Nat.not_lt.mpr h1, Nat.not_lt.mpr h2, Nat.not_lt.mpr h3, if_false,
      run_wrap, hfail]

/-- Witness of claim C16: every operation on a backend that never answers. -/
theorem C16_witness :
    (∀ r, (fetchFromAPI timeoutEnv r freshWorld).1 =
      .error (mkError "Request timed out. Please check your connection.")) ∧
    (∀ f ∈ sosLongName.required, isBlank f.2 = false) ∧
    ((getNews none).run timeoutEnv freshWorld).1 =
      .error (mkError ("Failed to fetch news" ++ ": " ++
        "Request timed out. Please check your connection.")) ∧
    (sendSOSAlert timeoutEnv sosHyphens freshWorld).1 =
      .error (mkError ("Failed to send SOS alert" ++ ": " ++
        "Request timed out. Please check your connection.")) := by
  have h := C16_failure_wrapped_with_label timeoutEnv freshWorld
    (mkError "Request timed out. Please check your connection.") none sosHyphens
    "----------" "Asha" "Bhubaneswar" "Drinking water" (fun _ => rfl) (by decide) rfl
    ((phoneRegexTest_iff "----------").mp (by decide)) (by decide) (by decide) (by decide)
    (by decide)
  exact ⟨fun _ => rfl, by decide, h.1, h.2.2.2.2.2.1⟩

/-- Claim C17. For a response whose status `c` is outside 200..299, with status text `t`:
when the body cannot be parsed as JSON, `fetchFromAPI` throws an error whose message is
exactly `HTTP c: t`; when the body parses to an object whose `error` field is a non-empty
string, the message is that string. -/
theorem C17_error_message_of_failed_response (env : Env) (r : Request) (w : World) (c : Nat)
    (t : String) (hc : responseOk c = false) :
    (∀ parseError : JSError, env.net w.netCount r = .response c t (.error parseError) →
      (fetchFromAPI env r w).1 = .error (mkError ("HTTP " ++ toString c ++ ": " ++ t))) ∧
    (∀ (fields : List (String × JSVal)) (s : String),
      env.net w.netCount r = .response c t (.ok (.obj fields)) →
      lookupField "error" fields = some (.str s) → s ≠ "" →
      (fetchFromAPI env r w).1 = .error (mkError s)) := by
  constructor
  · intro parseError hnet
    have hne : ("HTTP " ++ toString c ++ ": " ++ t) ≠ "" := by
      rw [String.append_assoc, String.append_assoc]
      exact append_ne_empty _ _ (by decide)
    simp [fetchFromAPI_eq, hnet, fetchSettle, fetchTry, hc, JSVal.getError, lookupField,
      JSVal.truthy, hne, JSVal.toJSString, fetchCatch, mkError]
  · intro fields s hnet hf hs
    simp [fetchFromAPI_eq, hnet, fetchSettle, fetchTry, hc, JSVal.getError, hf, JSVal.truthy,
      hs, JSVal.toJSString, fetchCatch, mkError]

/-- Witness of claim C17: a `404 Not Found` whose body is not JSON, and one whose body is
`{"error": "Resource missing"}`. -/
theorem C17_witness :
    responseOk 404 = false ∧
    (fetchFromAPI htmlErrorEnv (getRequest "/prepare/kit") freshWorld).1 =
      .error (mkError "HTTP 404: Not Found") ∧
    (fetchFromAPI notFoundEnv (getRequest "/prepare/kit") freshWorld).1 =
      .error (mkError "Resource missing") :=
  ⟨by decide,
    (C17_error_message_of_failed_response htmlErrorEnv (getRequest "/prepare/kit") freshWorld
      404 "Not Found" (by decide)).1 ⟨"SyntaxError", "Unexpected token <"⟩ rfl,
    (C17_error_message_of_failed_response notFoundEnv (getRequest "/prepare/kit") freshWorld
      404 "Not Found" (by decide)).2 [("error", .str "Resource missing")] "Resource missing"
      rfl rfl (by decide)⟩

/-- Claim C20. For `maxAttempts <= 0`, `retryRequest` never invokes the operation (the
world is unchanged) and throws the value `undefined` of the unassigned `lastError`, not an
error object. -/
theorem C20_no_attempts_throws_undefined (requestFn : M JSVal) (maxAttempts : Int)
    (w : World) (h : maxAttempts ≤ 0) :
    retryRequest requestFn maxAttempts w = (.error none, w) := by
  have hcond : ¬ (1 : Int) ≤ maxAttempts := by omega
  simp [retryRequest, retryLoop, hcond]

/-- Witness of claim C20: zero attempts of a request for the kit items. -/
theorem C20_witness :
    (0 : Int) ≤ 0 ∧
    retryRequest (getKitItems.run healthyEnv) 0 freshWorld = (.error none, freshWorld) :=
  ⟨by decide,
    C20_no_attempts_throws_undefined (getKitItems.run healthyEnv) 0 freshWorld (by decide)⟩

theorem retryLoop_fuel (requestFn : M JSVal) (maxAttempts : Int) (extra : Nat) :
    ∀ (fuel : Nat) (attempt : Int) (lastError : Option JSError) (w : World),
      (maxAttempts - attempt).toNat + 1 ≤ fuel →
      retryLoop requestFn maxAttempts (fuel + extra) attempt lastError w =
        retryLoop requestFn maxAttempts fuel attempt lastError w := by
  intro fuel
  induction fuel with
  | zero => intro attempt lastError w h; omega
  | succ fuel ih =>
    intro attempt lastError w h
    rw [show fuel + 1 + extra = (fuel + extra) + 1 by omega]
    simp only [retryLoop]
    by_cases hle : attempt ≤ maxAttempts
    · simp only [hle, if_true]
      rcases requestFn w with ⟨r, w1⟩
      cases r with
      | ok v => rfl
      | error e =>
        simp only
        by_cases heq : attempt = maxAttempts
        · simp only [heq, if_true]
        · simp only [heq, if_false]
          cases stopsRetry e with
          | true => rfl
          | false =>
            simp only [Bool.false_eq_true, if_false]
            exact ih _ _ _ (by omega)
    · simp only [hle, if_false]

theorem retryRequest_fuel (requestFn : M JSVal) (maxAttempts : Int) (extra : Nat) (w : World) :
    retryLoop requestFn maxAttempts (maxAttempts.toNat + 1 + extra) 1 none w =
      retryRequest requestFn maxAttempts w := by
  unfold retryRequest
  exact retryLoop_fuel requestFn maxAttempts extra _ 1 none w (by omega)

theorem retryLoop_fail_step (requestFn : M JSVal) (maxAttempts : Int) (fuel i : Nat)
    (lastError : Option JSError) (W : World) (e : JSError)
    (hlt : (i : Int) + 1 < maxAttempts) (hfail : (requestFn W).1 = .error e)
    (hretry : stopsRetry e = false) :
    retryLoop requestFn maxAttempts (fuel + 1) ((i : Int) + 1) lastError W =
      retryLoop requestFn maxAttempts fuel ((i : Int) + 1 + 1) (some e)
        ((requestFn W).2.emit [Event.sleep (RETRY_DELAY * ((i : Int) + 1))]) := by
  have hle : (i : Int) + 1 ≤ maxAttempts := by omega
  have hne : ¬ ((i : Int) + 1 = maxAttempts) := by omega
  rcases hr : requestFn W with ⟨r, w1⟩
  rw [hr] at hfail
  simp only at hfail
  subst hfail
  simp [retryLoop, hle, hne, hr, hretry]

theorem retryLoop_success (requestFn : M JSVal) (maxAttempts : Int) (w : World) (v : JSVal) :
    ∀ (n i fuel : Nat) (lastError : Option JSError),
      ((i + n : Nat) : Int) < maxAttempts → n + 1 ≤ fuel →
      (∀ j, j < n → ∃ e, (requestFn (afterFailures requestFn (i + j) w)).1 = .error e ∧
        stopsRetry e = false) →
      (requestFn (afterFailures requestFn (i + n) w)).1 = .ok v →
      retryLoop requestFn maxAttempts fuel ((i : Int) + 1) lastError
          (afterFailures requestFn i w) =
        (.ok v, (requestFn (afterFailures requestFn (i + n) w)).2) := by
  intro n
  induction n with
  | zero =>
    intro i fuel lastError hlt hfuel _ hok
    obtain ⟨fuel', rfl⟩ : ∃ f, fuel = f + 1 := ⟨fuel - 1, by omega⟩
    have hle : (i : Int) + 1 ≤ maxAttempts := by
      have : ((i + 0 : Nat) : Int) < maxAttempts := hlt
      simp only [Nat.add_zero] at this
      omega
    simp only [Nat.add_zero] at hok ⊢
    rcases hr : requestFn (afterFailures requestFn i w) with ⟨r, w1⟩
    rw [hr] at hok
    simp only at hok
    subst hok
    simp [retryLoop, hle, hr]
  | succ n ih =>
    intro i fuel lastError hlt hfuel hfail hok
    obtain ⟨fuel', rfl⟩ : ∃ f, fuel = f + 1 := ⟨fuel - 1, by omega⟩
    obtain ⟨e, he, hretry⟩ := hfail 0 (Nat.succ_pos n)
    simp only [Nat.add_zero] at he
    have hlt' : (i : Int) + 1 < maxAttempts := by
      have h := hlt
      push_cast at h
      omega
    rw [retryLoop_fail_step requestFn maxAttempts fuel' i lastError _ e hlt' he hretry]
    have hih := ih (i + 1) fuel' (some e)
      (by have h := hlt; push_cast at h ⊢; omega) (by omega)
      (fun j hj => by
        have := hfail (j + 1) (by omega)
        rwa [show i + (j + 1) = i + 1 + j by omega] at this)
      (by rwa [show i + (n + 1) = i + 1 + n by omega] at hok)
    rw [show i + (n + 1) = i + 1 + n by omega]
    have hcast : ((i + 1 : Nat) : Int) + 1 = (i : Int) + 1 + 1 := by push_cast; rfl
    rw [← hcast]
    exact hih

theorem retryLoop_exhaust (requestFn : M JSVal) (maxAttempts : Int) (w : World) (e : JSError) :
    ∀ (n i fuel : Nat) (lastError : Option JSError),
      ((i + n : Nat) : Int) + 1 = maxAttempts → n + 1 ≤ fuel →
      (∀ j, j < n → ∃ e', (requestFn (afterFailures requestFn (i + j) w)).1 = .error e' ∧
        stopsRetry e' = false) →
      (requestFn (afterFailures requestFn (i + n) w)).1 = .error e →
      retryLoop requestFn maxAttempts fuel ((i : Int) + 1) lastError
          (afterFailures requestFn i w) =
        (.error (some e), (requestFn (afterFailures requestFn (i + n) w)).2) := by
  intro n
  induction n with
  | zero =>
    intro i fuel lastError heq hfuel _ hlast
    obtain ⟨fuel', rfl⟩ : ∃ f, fuel = f + 1 := ⟨fuel - 1, by omega⟩
    have heq' : (i : Int) + 1 = maxAttempts := by
      have h := heq
      simp only [Nat.add_zero] at h
      exact h
    have hle : (i : Int) + 1 ≤ maxAttempts := by omega
    simp only [Nat.add_zero] at hlast ⊢
    rcases hr : requestFn (afterFailures requestFn i w) with ⟨r, w1⟩
    rw [hr] at hlast
    simp only at hlast
    subst hlast
    simp [retryLoop, hle, hr, heq']
  | succ n ih =>
    intro i fuel lastError heq hfuel hfail hlast
    obtain ⟨fuel', rfl⟩ : ∃ f, fuel = f + 1 := ⟨fuel - 1, by omega⟩
    obtain ⟨e', he, hretry⟩ := hfail 0 (Nat.succ_pos n)
    simp only [Nat.add_zero] at he
    have hlt' : (i : Int) + 1 < maxAttempts := by
      have h := heq
      push_cast at h
      omega
    rw [retryLoop_fail_step requestFn maxAttempts fuel' i lastError _ e' hlt' he hretry]
    have hih := ih (i + 1) fuel' (some e')
      (by have h := heq; push_cast at h ⊢; omega) (by omega)
      (fun j hj => by
        have := hfail (j + 1) (by omega)
        rwa [show i + (j + 1) = i + 1 + j by omega] at this)
      (by rwa [show i + (n + 1) = i + 1 + n by omega] at hlast)
    rw [show i + (n + 1) = i + 1 + n by omega]
    have hcast : ((i + 1 : Nat) : Int) + 1 = (i : Int) + 1 + 1 := by push_cast; rfl
    rw [← hcast]
    exact hih

theorem run_wrap_sleeps (env : Env) (r : Request) (logText label : String) (W : World) :
    sleepsOf (ApiCall.run env { request := r, onSettle := wrapFailure logText label }
      W).2.trace = sleepsOf W.trace := by
  rw [run_wrap]
  cases fetchSettle (env.net W.netCount r) <;> simp [sleepsOf]

theorem afterFailures_sleeps (requestFn : M JSVal) (w : World)
    (hquiet : ∀ W, sleepsOf (requestFn W).2.trace = sleepsOf W.trace) :
    ∀ k, sleepsOf (afterFailures requestFn k w).trace = sleepsOf w.trace ++ retryWaits k := by
  intro k
  induction k with
  | zero => simp [afterFailures, retryWaits]
  | succ k ih =>
    simp only [afterFailures, emit_trace, sleepsOf_append, hquiet, ih, retryWaits,
      List.append_assoc]
    rfl

theorem afterFailures_netCount (requestFn : M JSVal) (w : World)
    (hone : ∀ W, (requestFn W).2.netCount = W.netCount + 1) :
    ∀ k, (afterFailures requestFn k w).netCount = w.netCount + k := by
  intro k
  induction k with
  | zero => rfl
  | succ k ih =>
    simp only [afterFailures, emit_netCount, hone, ih]
    omega

/-- Claim C13. An operation that fails `k` times (`k < maxAttempts`) with errors that do not
stop the retry and then succeeds with `v`: `retryRequest` returns `v`, and the world it
leaves is that of `k + 1` invocations with a wait of `RETRY_DELAY * i` after the i-th failed
one. So an operation that sends one request per invocation has sent `k + 1`, and the waits
recorded are `RETRY_DELAY * 1, ..., RETRY_DELAY * k` in that order. -/
theorem C13_retry_succeeds_after_failures (requestFn : M JSVal) (maxAttempts : Int) (k : Nat)
    (v : JSVal) (w : World) (hk : (k : Int) < maxAttempts)
    (hfail : ∀ i, i < k → ∃ e, (requestFn (afterFailures requestFn i w)).1 = .error e ∧
      stopsRetry e = false)
    (hok : (requestFn (afterFailures requestFn k w)).1 = .ok v) :
    retryRequest requestFn maxAttempts w =
      (.ok v, (requestFn (afterFailures requestFn k w)).2) ∧
    ((∀ W, (requestFn W).2.netCount = W.netCount + 1) →
      (retryRequest requestFn maxAttempts w).2.netCount = w.netCount + (k + 1)) ∧
    ((∀ W, sleepsOf (requestFn W).2.trace = sleepsOf W.trace) →
      sleepsOf (retryRequest requestFn maxAttempts w).2.trace =
        sleepsOf w.trace ++ retryWaits k) := by
  have hmain : retryRequest requestFn maxAttempts w =
      (.ok v, (requestFn (afterFailures requestFn k w)).2) := by
    have h := retryLoop_success requestFn maxAttempts w v k 0 (maxAttempts.toNat + 1) none
      (by simpa using hk) (by omega)
      (fun j hj => by simpa using hfail j hj) (by simpa using hok)
    simpa [retryRequest, afterFailures] using h
  refine ⟨hmain, fun hone => ?_, fun hquiet => ?_⟩
  · rw [hmain]
    simp only [hone, afterFailures_netCount requestFn w hone]
    omega
  · rw [hmain]
    simp only [hquiet, afterFailures_sleeps requestFn w hquiet]

/-- Witness of claim C13: the news requested with retry from a backend that answers from the
third request on; three requests, waits of 1000 then 2000 milliseconds. -/
theorem C13_witness :
    (2 : Int) < RETRY_ATTEMPTS ∧
    (getNewsWithRetry flakyEnv (some "India") freshWorld).1 = .ok (.arr [.str "headline"]) ∧
    (getNewsWithRetry flakyEnv (some "India") freshWorld).2.netCount = 0 + (2 + 1) ∧
    sleepsOf (getNewsWithRetry flakyEnv (some "India") freshWorld).2.trace = [] ++ [1000, 2000] := by
  obtain ⟨h1, h2, h3⟩ := C13_retry_succeeds_after_failures
    ((getNews (some "India")).run flakyEnv) RETRY_ATTEMPTS 2 (.arr [.str "headline"])
    freshWorld (by decide)
    (fun i hi => by
      have : i = 0 ∨ i = 1 := by omega
      rcases this with rfl | rfl
      · exact ⟨_, rfl, by decide⟩
      · exact ⟨_, rfl, by decide⟩)
    rfl
  refine ⟨by decide, ?_, ?_, ?_⟩
  · exact congrArg Prod.fst h1
  · exact h2 (fun W => run_wrap_netCount _ _ _ _ W)
  · exact h3 (fun W => run_wrap_sleeps _ _ _ _ W)

/-- Claim C14. For `maxAttempts >= 1` and an operation that fails on each invocation with an
error that does not stop the retry: `retryRequest` throws the error of invocation number
`maxAttempts`, and the world it leaves is that of `maxAttempts` invocations with a wait
after each but the last. So an operation that sends one request per invocation has sent
`maxAttempts`, and the waits recorded are those before the attempts 2 to `maxAttempts`
only. -/
theorem C14_retry_exhausts_attempts (requestFn : M JSVal) (maxAttempts : Int) (w : World)
    (hm : 1 ≤ maxAttempts)
    (hfail : ∀ i, i < maxAttempts.toNat →
      ∃ e, (requestFn (afterFailures requestFn i w)).1 = .error e ∧ stopsRetry e = false) :
    ∃ e, (requestFn (afterFailures requestFn (maxAttempts.toNat - 1) w)).1 = .error e ∧
      retryRequest requestFn maxAttempts w =
        (.error (some e), (requestFn (afterFailures requestFn (maxAttempts.toNat - 1) w)).2) ∧
      ((∀ W, (requestFn W).2.netCount = W.netCount + 1) →
        (retryRequest requestFn maxAttempts w).2.netCount = w.netCount + maxAttempts.toNat) ∧
      ((∀ W, sleepsOf (requestFn W).2.trace = sleepsOf W.trace) →
        sleepsOf (retryRequest requestFn maxAttempts w).2.trace =
          sleepsOf w.trace ++ retryWaits (maxAttempts.toNat - 1)) := by
  obtain ⟨e, he, _⟩ := hfail (maxAttempts.toNat - 1) (by omega)
  have hmain : retryRequest requestFn maxAttempts w =
      (.error (some e), (requestFn (afterFailures requestFn (maxAttempts.toNat - 1) w)).2) := by
    have h := retryLoop_exhaust requestFn maxAttempts w e (maxAttempts.toNat - 1) 0
      (maxAttempts.toNat + 1) none
      (by simp only [Nat.zero_add]; omega) (by omega)
      (fun j hj => by simpa using hfail j (by omega)) (by simpa using he)
    simpa [retryRequest, afterFailures] using h
  refine ⟨e, he, hmain, fun hone => ?_, fun hquiet => ?_⟩
  · rw [hmain]
    simp only [hone, afterFailures_netCount requestFn w hone]
    omega
  · rw [hmain]
    simp only [hquiet, afterFailures_sleeps requestFn w hquiet]

/-- Witness of claim C14: the news requested with retry, at the default of 3 attempts, from
a backend that never answers; three requests, waits of 1000 then 2000 milliseconds, and the
error of the last attempt. -/
theorem C14_witness :
    (1 : Int) ≤ RETRY_ATTEMPTS ∧
    (getNewsWithRetry timeoutEnv (some "India") freshWorld).1 =
      .error (some (mkError
        "Failed to fetch news: Request timed out. Please check your connection.")) ∧
    (getNewsWithRetry timeoutEnv (some "India") freshWorld).2.netCount = 0 + 3 ∧
    sleepsOf (getNewsWithRetry timeoutEnv (some "India") freshWorld).2.trace =
      [] ++ [1000, 2000] := by
  obtain ⟨e, he, h1, h2, h3⟩ := C14_retry_exhausts_attempts
    ((getNews (some "India")).run timeoutEnv) RETRY_ATTEMPTS freshWorld (by decide)
    (fun i hi => by
      have : i = 0 ∨ i = 1 ∨ i = 2 := by
        have : RETRY_ATTEMPTS.toNat = 3 := by decide
        omega
      rcases this with rfl | rfl | rfl
      · exact ⟨_, rfl, by decide⟩
      · exact ⟨_, rfl, by decide⟩
      · exact ⟨_, rfl, by decide⟩)
  have he' : e = mkError
      "Failed to fetch news: Request timed out. Please check your connection." := by
    have : (Except.error e : Except JSError JSVal) = .error (mkError
        "Failed to fetch news: Request timed out. Please check your connection.") :=
      he.symm.trans rfl
    exact Except.error.inj this
  subst he'
  refine ⟨by decide, ?_, ?_, ?_⟩
  · exact congrArg Prod.fst h1
  · exact h2 (fun W => run_wrap_netCount _ _ _ _ W)
  · exact h3 (fun W => run_wrap_sleeps _ _ _ _ W)


/-- Counterexample to claim C18 as stated: loading the dashboard with the news endpoint
down shows no error notification. -/
theorem C18_counterexample :
    succeeded (TwoSourcePage.dashboard.firstResult newsDownEnv freshWorld) = false ∧
    errorNotifications (loadPageData newsDownEnv "dashboard" freshWorld).2.trace = [] := by
  decide

/-- Claim C18, amended. In every run of `loadPageData` on a page that is not yet loaded and
in which a data-source fetch fails, the failure is logged with `console.error` at least
once. An error notification (`ui.showMessage` with type `error`) is shown exactly when the
routine of the page throws: for the single-source recovery page always, the failed fetch
being the error shown; for a two-source page only when a render collaborator throws, that
`TypeError` being the error shown, and never for the failed fetch itself, so that no
notification is shown when the render collaborators return. -/
theorem C18_failures_logged_notified_when_load_throws (env : Env) (w : World)
    (pageId : String) (el : Element) (hel : w.dom pageId = some el)
    (hnl : el.loaded ≠ some "true") (hfail : sourceFailed env w pageId = true) :
    ∃ evs, (loadPageData env pageId w).2.trace = w.trace ++ evs ∧
      errorLogs evs ≠ [] ∧
      (pageId = "recovery" → ∃ e,
        fetchSettle (env.net w.netCount getOrganizations.request) = .error e ∧
        errorNotifications evs =
          [shownMessage (mkError ("Failed to fetch recovery organizations: " ++ e.message))]) ∧
      (∀ p : TwoSourcePage, pageId = p.id →
        errorNotifications evs =
          match p.failure env w with
          | none => []
          | some error => [shownMessage error]) := by
  have htwo : ∀ p : TwoSourcePage, pageId = p.id →
      (succeeded (p.firstResult env w) = false ∨ succeeded (p.secondResult env w) = false) →
      ∃ evs, (loadPageData env pageId w).2.trace = w.trace ++ evs ∧
        errorLogs evs ≠ [] ∧
        errorNotifications evs =
          match p.failure env w with
          | none => []
          | some error => [shownMessage error] := by
    intro p hp hf
    subst hp
    obtain ⟨_, h2, _⟩ := loadPageData_twoSource env w p el hel hnl
    refine ⟨_, h2, ?_, ?_⟩
    · have := events_errorLogs p env w hf
      rw [errorLogs_append, errorLogs_append]
      simp [this]
    · rw [errorNotifications_append, errorNotifications_append, events_errorNotifications]
      cases p.failure env w <;> simp [errorNotifications]
  unfold sourceFailed at hfail
  by_cases hd : pageId = "dashboard"
  · simp only [hd, if_true, Bool.or_eq_true, Bool.not_eq_true'] at hfail
    obtain ⟨evs, h1, h2, h3⟩ := htwo .dashboard hd hfail
    refine ⟨evs, h1, h2, ?_, ?_⟩
    · intro h
      rw [hd] at h
      exact absurd h (by decide)
    · intro p hp
      cases p
      · exact h3
      · rw [hd] at hp
        exact absurd hp (by decide)
  · by_cases hp : pageId = "prepare"
    · simp only [hp, show ("prepare" = "dashboard") = False by decide, if_true, if_false,
        Bool.or_eq_true, Bool.not_eq_true'] at hfail
      obtain ⟨evs, h1, h2, h3⟩ := htwo .prepare hp hfail
      refine ⟨evs, h1, h2, ?_, ?_⟩
      · intro h
        rw [hp] at h
        exact absurd h (by decide)
      · intro p hp2
        cases p
        · rw [hp] at hp2
          exact absurd hp2 (by decide)
        · exact h3
    · by_cases hr : pageId = "recovery"
      · subst hr
        simp only [hd, hp, if_true, if_false, Bool.not_eq_true'] at hfail
        cases h : fetchSettle (env.net w.netCount getOrganizations.request) with
        | ok v => rw [h] at hfail; exact absurd hfail (by simp [succeeded])
        | error e =>
          have hf : recoveryFailure env w =
              some (mkError ("Failed to fetch recovery organizations: " ++ e.message)) := by
            simp [recoveryFailure, h]
          obtain ⟨evs, h1, _, _, h4, h5, _⟩ :=
            loadPageData_recovery_failed env w el _ hel hnl hf
          refine ⟨evs, h1, List.ne_nil_of_mem h5, fun _ => ⟨e, rfl, h4⟩, ?_⟩
          intro p hp2
          cases p <;> exact absurd hp2 (by decide)
      · simp [hd, hp, hr] at hfail

/-- Witness of claim C18 (amended): the dashboard with the news endpoint down. -/
theorem C18_witness :
    freshWorld.dom "dashboard" = some ⟨none, false⟩ ∧
    sourceFailed newsDownEnv freshWorld "dashboard" = true ∧
    ∃ evs, (loadPageData newsDownEnv "dashboard" freshWorld).2.trace =
        freshWorld.trace ++ evs ∧
      errorLogs evs ≠ [] ∧
      errorNotifications evs = [] := by
  obtain ⟨evs, h1, h2, _, h4⟩ :=
    C18_failures_logged_notified_when_load_throws newsDownEnv freshWorld "dashboard"
      ⟨none, false⟩ (by decide) (by decide) (by decide)
  exact ⟨by decide, by decide, evs, h1, h2, h4 .dashboard rfl⟩

/-- Claim C19. Loading a two-source page that is not yet loaded, when both of its fetches
fail: the loaded flag of the page becomes `true` and both render collaborators are called
with the empty array; after any further calls of the session, a call of `loadPageData` for
that page sends no request, and the two sources are never requested again. -/
theorem C19_both_sources_failed_is_final (env : Env) (w : World) (p : TwoSourcePage)
    (el : Element) (hel : w.dom p.id = some el) (hnl : el.loaded ≠ some "true")
    (h1 : succeeded (p.firstResult env w) = false)
    (h2 : succeeded (p.secondResult env w) = false) :
    (loadPageData env p.id w).2.loadedFlag p.id = some (some "true") ∧
    (∃ evs, (loadPageData env p.id w).2.trace = w.trace ++ evs ∧
      renderCalls evs = [p.renderFirst emptyArray, p.renderSecond emptyArray]) ∧
    ∀ ps : List String,
      (∃ evs, (loadPageData env p.id (runSession env ps (loadPageData env p.id w).2)).2.trace =
          (runSession env ps (loadPageData env p.id w).2).trace ++ evs ∧
        requestsOf evs = []) ∧
      fetchCount p.firstCall.request.url (runSession env ps (loadPageData env p.id w).2).trace =
        fetchCount p.firstCall.request.url (loadPageData env p.id w).2.trace ∧
      fetchCount p.secondCall.request.url
          (runSession env ps (loadPageData env p.id w).2).trace =
        fetchCount p.secondCall.request.url (loadPageData env p.id w).2.trace := by
  have ho1 := firstOutcome_of_failed p env w h1
  have ho2 := secondOutcome_of_failed p env w h2
  have hfl : p.failure env w = none := by rw [failure_eq, ho1, ho2]
  obtain ⟨_, htr, _, hflag, _⟩ := loadPageData_twoSource env w p el hel hnl
  rw [hfl] at hflag htr
  simp only at hflag
  refine ⟨hflag, ⟨_, htr, ?_⟩, fun ps => ⟨?_, ?_, ?_⟩⟩
  · rw [renderCalls_append, renderCalls_append, events_renderCalls, ho1]
    have e1 : renderedValue (p.firstResult env w) = emptyArray := by
      cases h : p.firstResult env w with
      | ok v => rw [h] at h1; exact absurd h1 (by simp [succeeded])
      | error e => rfl
    have e2 : renderedValue (p.secondResult env w) = emptyArray := by
      cases h : p.secondResult env w with
      | ok v => rw [h] at h2; exact absurd h2 (by simp [succeeded])
      | error e => rfl
    simp [renderCalls, isRenderCall, e1, e2]
  · have hsticky := runSession_loaded_sticky env p.id ps _ hflag
    obtain ⟨evs, ht, hreq, _⟩ :=
      loadPageData_step env (runSession env ps (loadPageData env p.id w).2) p.id
    exact ⟨evs, ht, by rw [hreq, pageRequests_loaded _ _ hsticky]⟩
  · exact session_count_loaded env _ p.id
      (ownRequests_twoSource p _ (Or.inl rfl)) ps _ hflag
  · exact session_count_loaded env _ p.id
      (ownRequests_twoSource p _ (Or.inr rfl)) ps _ hflag

/-- Witness of claim C19: the prepare page of a fresh document on a backend that never
answers. -/
theorem C19_witness :
    freshWorld.dom "prepare" = some ⟨none, false⟩ ∧
    succeeded (TwoSourcePage.prepare.firstResult timeoutEnv freshWorld) = false ∧
    succeeded (TwoSourcePage.prepare.secondResult timeoutEnv freshWorld) = false ∧
    (loadPageData timeoutEnv "prepare" freshWorld).2.loadedFlag "prepare" =
      some (some "true") :=
  ⟨by decide, by decide, by decide,
    (C19_both_sources_failed_is_final timeoutEnv freshWorld .prepare ⟨none, false⟩
      (by decide) (by decide) (by decide) (by decide)).1⟩

end CodeStorm
